import Mathlib

/-!
# Agrónica dashboard: view-state machine, live rendering and colour mapping

A shallow embedding of `src/public/script.js` (the current dashboard) and of the
colour helper of `src/Public/script.js` (the older single-view dashboard).

Conventions of the embedding:

* A JavaScript number is a `JsNum`: a finite binary64 value carried as the
  rational it denotes, `NaN`, or a signed infinity.  Every arithmetic operation
  rounds its exact result to the nearest binary64 value, ties to even, with
  gradual underflow and overflow to infinity (`toDouble`); the sign of zero is
  not modelled.
* A JSON object is an association list from key to value; a key that is absent
  reads as `none` (JavaScript `undefined`).  Numeric fields of the backend payload
  are finite numbers, carried as the binary64 values `response.json()` produced.
* The browser is part of the state (`World`): the interval timers that are active,
  the requests that were issued, the asynchronous operations still in flight, the
  text and colours written to the page and the errors written to the console.
* An exception is a value `Except (String × World) World`: the error carries the
  world at the moment of the `throw`, so that the effects that happened before it
  are kept, as in JavaScript.
* The elements the script looks up by id exist in the page.
-/

namespace Dashboard

/-! ## Numbers -/

/-- JavaScript numbers: finite (exact rational), `NaN`, or `±Infinity`
(`inf true` is `-Infinity`). -/
inductive JsNum where
  | fin (q : ℚ)
  | nan
  | inf (negative : Bool)
  deriving DecidableEq

/-- Rounding of a rational to the nearest integer, ties to the even one. -/
def roundHalfEven (x : ℚ) : ℤ :=
  if x - ⌊x⌋ < 1 / 2 then ⌊x⌋
  else if 1 / 2 < x - ⌊x⌋ then ⌊x⌋ + 1
  else if ⌊x⌋ % 2 = 0 then ⌊x⌋ else ⌊x⌋ + 1

/-- The exponent of the spacing of the binary64 values around `q`: 52 below the
binary exponent of `q` (53 significant bits), and never below `-1074`, the
spacing of the subnormal values. -/
def ulpExp (q : ℚ) : ℤ := max (Int.log 2 |q| - 52) (-1074)

/-- The binary64 value of an exact result: the nearest multiple of the spacing,
ties to even; a result whose rounding reaches `2^1024` overflows to an infinity. -/
def toDouble (q : ℚ) : JsNum :=
  if (2 : ℚ) ^ (1024 : ℤ) ≤ |(roundHalfEven (q / 2 ^ ulpExp q) : ℚ) * 2 ^ ulpExp q| then
    JsNum.inf (decide (q < 0))
  else JsNum.fin ((roundHalfEven (q / 2 ^ ulpExp q) : ℚ) * 2 ^ ulpExp q)

/-- The rationals that are binary64 values: rounding leaves them as they are. -/
def IsDouble (q : ℚ) : Prop := toDouble q = JsNum.fin q

namespace JsNum

/-- JavaScript `a + b`. -/
def add : JsNum → JsNum → JsNum
  | fin a, fin b => toDouble (a + b)
  | nan, _ => nan
  | _, nan => nan
  | inf s, inf t => if s = t then inf s else nan
  | inf s, fin _ => inf s
  | fin _, inf t => inf t

/-- JavaScript unary minus. -/
def neg : JsNum → JsNum
  | fin a => fin (-a)
  | nan => nan
  | inf s => inf (!s)

/-- JavaScript `a - b`. -/
def sub (a b : JsNum) : JsNum := add a (neg b)

/-- JavaScript `a * b`. -/
def mul : JsNum → JsNum → JsNum
  | fin a, fin b => toDouble (a * b)
  | nan, _ => nan
  | _, nan => nan
  | inf s, inf t => inf (xor s t)
  | inf s, fin b => if b = 0 then nan else inf (xor s (decide (b < 0)))
  | fin a, inf t => if a = 0 then nan else inf (xor (decide (a < 0)) t)

/-- JavaScript `a / b`: a zero divisor gives `NaN` (for `0 / 0`) or an infinity. -/
def div : JsNum → JsNum → JsNum
  | fin a, fin b =>
      if b = 0 then (if a = 0 then nan else inf (decide (a < 0))) else toDouble (a / b)
  | nan, _ => nan
  | _, nan => nan
  | inf _, inf _ => nan
  | inf s, fin b => inf (xor s (decide (b < 0)))
  | fin _, inf _ => fin 0

/-- JavaScript `a > b` (false as soon as one side is `NaN`). -/
def gt : JsNum → JsNum → Bool
  | fin a, fin b => decide (b < a)
  | nan, _ => false
  | _, nan => false
  | inf s, inf t => !s && t
  | inf s, fin _ => !s
  | fin _, inf t => t

/-- JavaScript `Math.min(a, b)`. -/
def min (a b : JsNum) : JsNum :=
  match a, b with
  | nan, _ => nan
  | _, nan => nan
  | _, _ => if gt a b then b else a

/-- JavaScript `Math.max(a, b)`. -/
def max (a b : JsNum) : JsNum :=
  match a, b with
  | nan, _ => nan
  | _, nan => nan
  | _, _ => if gt b a then b else a

end JsNum

/-- Conversion of a field read to a number: `undefined` becomes `NaN`. -/
def toNumber : Option ℚ → JsNum
  | none => JsNum.nan
  | some q => JsNum.fin q

/-- The idiom `x || 0` on a field that is absent or a finite number: the falsy
values (`undefined` and `0`) give `0`, any other number is kept. -/
def orZero : Option ℚ → ℚ
  | none => 0
  | some q => if q = 0 then 0 else q

/-! ## Text produced by `toFixed` -/

/-- A piece of text: a literal string, or the exponent notation that `toFixed`
falls back to for magnitudes of at least `10^21` (its digits are not modelled). -/
inductive Text where
  | lit (s : String)
  | expForm (q : ℚ)
  deriving DecidableEq

/-- A decimal numeral with a fixed number of fraction digits: it denotes
`± units / 10 ^ digits`. -/
structure Fixed where
  negative : Bool
  units : Nat
  digits : Nat
  deriving DecidableEq

/-- The rational a decimal numeral denotes. -/
def Fixed.value (f : Fixed) : ℚ :=
  (if f.negative then -1 else 1) * ((f.units : ℚ) / 10 ^ f.digits)

/-- The fraction digits of a numeral, padded with zeros on the left. -/
def Fixed.fraction (f : Fixed) : String :=
  let s := Nat.repr (f.units % 10 ^ f.digits)
  String.mk (List.replicate (f.digits - s.length) '0') ++ s

/-- The string of a decimal numeral, as `toFixed` writes it. -/
def Fixed.render (f : Fixed) : String :=
  (if f.negative then "-" else "") ++ Nat.repr (f.units / 10 ^ f.digits) ++
    (if f.digits = 0 then "" else "." ++ f.fraction)

/-- The numeral `toFixed` selects for a finite value: the integer `n` with
`n / 10^d` closest to `|q|`, the larger one on a tie, and the sign of `q`. -/
def roundFixed (d : Nat) (q : ℚ) : Fixed :=
  { negative := decide (q < 0)
    units := (⌊|q| * 10 ^ d + 1 / 2⌋).toNat
    digits := d }

/-- JavaScript `x.toFixed(d)`. -/
def toFixed (d : Nat) : JsNum → Text
  | JsNum.fin q =>
      if (10 : ℚ) ^ 21 ≤ |q| then Text.expForm q else Text.lit (roundFixed d q).render
  | JsNum.nan => Text.lit "NaN"
  | JsNum.inf false => Text.lit "Infinity"
  | JsNum.inf true => Text.lit "-Infinity"

/-! ## Colours -/

/-- A CSS colour: a hexadecimal literal, or the template
`hsl(hue, saturation%, lightness%)` with its three interpolated numbers. -/
inductive Color where
  | hex (s : String)
  | hsl (hue saturation lightness : JsNum)
  deriving DecidableEq

/-- `mapLuxToColor(lux, minLux, maxLux)` of `src/public/script.js`; `lux = none`
is `null` or `undefined`.  The defaults `minLux = 0`, `maxLux = 2000` are passed
by the caller `updateHeatmap`.  The two differences `lux - minLux` and
`maxLux - minLux` are taken exactly, which is what binary64 gives for the default
range (`minLux = 0`); the division and the interpolation round. -/
def mapLuxToColor (lux : Option ℚ) (minLux maxLux : ℚ) : Color :=
  match lux with
  | none => Color.hex "#a3b1c6"
  | some lux =>
    if lux < minLux then Color.hex "#a3b1c6"
    else
      let ratio := JsNum.min
        (JsNum.div (JsNum.fin (Max.max (lux - minLux) 0)) (JsNum.fin (maxLux - minLux)))
        (JsNum.fin 1)
      let hue := JsNum.sub (JsNum.fin 210) (JsNum.mul ratio (JsNum.fin 150))
      let lightness := JsNum.add (JsNum.fin 55) (JsNum.mul ratio (JsNum.fin 15))
      let saturation := JsNum.add (JsNum.fin 70) (JsNum.mul ratio (JsNum.fin 10))
      Color.hsl hue saturation lightness

end Dashboard

namespace Legacy

open Dashboard

/-- `mapLuxToColor(lux, minLux, maxLux)` of `src/Public/script.js` (defaults
`minLux = 0`, `maxLux = 1500`): only a missing value gives the neutral colour. -/
def mapLuxToColor (lux : Option ℚ) (minLux maxLux : ℚ) : Color :=
  match lux with
  | none => Color.hex "#a3b1c6"
  | some lux =>
      let ratio := JsNum.min
        (JsNum.div (JsNum.fin (Max.max (lux - minLux) 0)) (JsNum.fin (maxLux - minLux)))
        (JsNum.fin 1)
      let hue := JsNum.sub (JsNum.fin 60) (JsNum.mul ratio (JsNum.fin 60))
      let lightness := JsNum.add (JsNum.fin 50) (JsNum.mul ratio (JsNum.fin 10))
      Color.hsl hue (JsNum.fin 80) lightness

end Legacy

namespace Dashboard

/-! ## Configuration constants -/

/-- The three view modes; their keys are `'live'`, `'today'` and `'7days'`. -/
inductive View where
  | live
  | today
  | sevenDays
  deriving DecidableEq

/-- The string of a view mode, as passed to `setView`. -/
def View.key : View → String
  | View.live => "live"
  | View.today => "today"
  | View.sevenDays => "7days"

/-- The table `API_URLS`. -/
def API_URLS : List (String × String) :=
  [ ("live", "/api/data/current"),
    ("summary_today", "/api/data/summary?range_days=1"),
    ("summary_7days", "/api/data/summary?range_days=7"),
    ("historical_today", "/api/data/historical?range_days=1"),
    ("historical_7days", "/api/data/historical?range_days=7") ]

/-- A read `API_URLS[key]` used as the argument of `fetch`: a key that is not in
the table gives `undefined`, which `fetch` turns into the text `undefined`. -/
def apiUrl (key : String) : String :=
  (API_URLS.lookup key).getD "undefined"

/-- The constant `LIVE_UPDATE_INTERVAL`, in milliseconds. -/
def LIVE_UPDATE_INTERVAL : Nat := 5000

/-- The constant `SPECTRAL_LABELS`. -/
def SPECTRAL_LABELS : List String :=
  ["415nm", "440nm", "485nm", "515nm", "555nm", "590nm",
   "610nm", "680nm", "730nm", "760nm", "860nm", "Clear"]

/-- The constant `DATA_KEYS`. -/
def DATA_KEYS : List String :=
  ["ch_415", "ch_440", "ch_485", "ch_515", "ch_555", "ch_590",
   "ch_610", "ch_680", "ch_730", "ch_760", "ch_860", "ch_clear"]

/-- The keys of `SENSOR_MAPPING`, in the order a `for ... in` visits them. -/
inductive Sensor where
  | Referencia
  | Cama_1
  | Cama_2
  deriving DecidableEq

/-- The key string of a sensor. -/
def Sensor.name : Sensor → String
  | Sensor.Referencia => "Referencia"
  | Sensor.Cama_1 => "Cama_1"
  | Sensor.Cama_2 => "Cama_2"

/-- The sensor with a given key, if `SENSOR_MAPPING` has that key. -/
def Sensor.ofName (s : String) : Option Sensor :=
  if s = "Referencia" then some Sensor.Referencia
  else if s = "Cama_1" then some Sensor.Cama_1
  else if s = "Cama_2" then some Sensor.Cama_2
  else none

/-- An entry of `SENSOR_MAPPING` (`pfx` is the field `prefix`). -/
structure SensorInfo where
  canvasId : String
  pfx : String
  color : String

/-- The table `SENSOR_MAPPING`. -/
def SENSOR_MAPPING : Sensor → SensorInfo
  | Sensor.Referencia =>
      { canvasId := "referenceChart", pfx := "ref", color := "rgba(54, 162, 235, 0.7)" }
  | Sensor.Cama_1 =>
      { canvasId := "bed1Chart", pfx := "bed1", color := "rgba(75, 192, 192, 0.7)" }
  | Sensor.Cama_2 =>
      { canvasId := "bed2Chart", pfx := "bed2", color := "rgba(255, 206, 86, 0.7)" }

/-! ## Backend payloads

The payloads are the values `response.json()` resolves to, so every number in
them is a binary64 value. -/

/-- A sensor reading as parsed from JSON: field name to number. -/
abbrev Reading := List (String × ℚ)

/-- A reading as `response.json()` yields it: every number is a binary64 value (a
decimal of the JSON text enters as the binary64 value nearest to it). -/
def Parsed (r : Reading) : Prop := ∀ p ∈ r, IsDouble p.2

/-- The body of `/api/data/current`: sensor name to reading. -/
abbrev LiveData := List (String × Reading)

/-- A point of a historical series. -/
structure HistPoint where
  created_at : String
  ppfd_total : Option ℚ

/-- The body of `/api/data/historical`: sensor name to series. -/
abbrev HistData := List (String × List HistPoint)

/-- An entry of a summary. -/
structure SummaryEntry where
  dli : Option ℚ
  avg_rfr : Option ℚ

/-- The body of `/api/data/summary`: sensor name to entry. -/
abbrev SummaryData := List (String × SummaryEntry)

/-- What `response.json()` gives: a rejection for a body that does not parse,
the value `null`, or an object. -/
inductive Body (α : Type) where
  | unparsable
  | null
  | obj (a : α)

/-- How a `fetch` ends: the promise rejects (network failure), or it resolves to
a response with its `ok` flag, its `statusText` and its body. -/
inductive Response (α : Type) where
  | networkError
  | http (ok : Bool) (statusText : String) (body : Body α)

/-! ## Charts and page -/

/-- The value of `config.type` of a chart. -/
inductive ChartType where
  | bar
  | line
  deriving DecidableEq

/-- An entry of a dataset: a number, a text (the result of `toFixed`), or a point
`(x, y)` of a time series (`x` is the timestamp the `Date` is built from). -/
inductive Datum where
  | num (q : ℚ)
  | text (t : Text)
  | point (x : String) (y : ℚ)
  deriving DecidableEq

/-- A sensor chart instance: `uid` identifies the instance (`new Chart`), the
other fields are the parts of it the script reads or writes.  Static styling is
not carried. -/
structure Chart where
  uid : Nat
  type : ChartType
  labels : Option (List String)
  label : String
  data : List Datum
  xType : String
  updates : Nat
  deriving DecidableEq

/-- The transmission chart: the data of its two datasets. -/
structure TransmissionChart where
  uid : Nat
  bed1 : List Datum
  bed2 : List Datum
  updates : Nat
  deriving DecidableEq

/-- The three metric readouts of a sensor. -/
structure Metrics where
  ppfd : Text
  dli : Text
  rfr : Text
  deriving DecidableEq

/-- An interval timer created by `setInterval`; its callback is always
`fetchAndDisplayLiveData`. -/
structure Timer where
  id : Nat
  delay : Nat
  deriving DecidableEq

/-- An asynchronous operation that is suspended at an `await`.
* `liveCycle`: `updateDashboard` waiting for `fetchAndDisplayLiveData`;
* `liveTick`: `fetchAndDisplayLiveData` called by the interval timer;
* `histCycle h s settled`: `updateDashboard` in a non-live view; `h` and `s` say
  whether the historical and the summary request are still in flight, `settled`
  whether `Promise.all` has settled (so that `finally` has run). -/
inductive Pending where
  | liveCycle
  | liveTick
  | histCycle (histInFlight sumInFlight settled : Bool)
  deriving DecidableEq

/-- The script state (`view`, `updateIntervalId`, `charts`), the page, and the
browser: timers, requests issued, operations in flight, console. -/
structure World where
  view : View
  updateIntervalId : Option Nat
  charts : Sensor → Option Chart
  transmission : Option TransmissionChart
  metrics : Sensor → Option Metrics
  heatmap : Sensor → Option Color
  titles : Sensor → Option (String × String)
  activeBtn : Option View
  listeners : Bool
  timers : List Timer
  nextTimerId : Nat
  nextChartUid : Nat
  destroyed : List Nat
  pending : List Pending
  requests : List String
  console : List String
  dashboardCalls : Nat

/-- The result of a computation that may throw: the error carries the world at
the moment of the throw. -/
abbrev Result := Except (String × World) World

/-- The world a result ends in, thrown or not. -/
def Result.world : Result → World
  | Except.ok w => w
  | Except.error (_, w) => w

/-- Truthiness of `state.updateIntervalId`: `null` and `0` are falsy. -/
def truthy : Option Nat → Bool
  | none => false
  | some n => decide (n ≠ 0)

/-- Update of a table at one sensor. -/
def setAt {α : Type} (f : Sensor → α) (s : Sensor) (a : α) : Sensor → α :=
  fun t => if t = s then a else f t

/-! ## Chart utilities -/

/-- The function `getBarChartConfig`, as the chart it configures. -/
def getBarChartConfig (uid : Nat) (label : String) : Chart :=
  { uid := uid, type := ChartType.bar, labels := some SPECTRAL_LABELS, label := label,
    data := [], xType := "category", updates := 0 }

/-- The function `getLineChartConfig`, as the chart it configures. -/
def getLineChartConfig (uid : Nat) (label : String) : Chart :=
  { uid := uid, type := ChartType.line, labels := none, label := label,
    data := [], xType := "time", updates := 0 }

/-- The function `createChart`: a new instance is stored in `state.charts`.  The
canvas and the colour, which only style the instance, are not carried. -/
def createChart (sensorId : Sensor) (type : ChartType) (label : String) (w : World) : World :=
  let config := if type = ChartType.bar then getBarChartConfig w.nextChartUid label
    else getLineChartConfig w.nextChartUid label
  { w with charts := setAt w.charts sensorId (some config), nextChartUid := w.nextChartUid + 1 }

/-- The function `recreateChartIfNeeded`; reading `chart.config` of a chart that
is not in the table throws.  `destroy()` is recorded in `destroyed`. -/
def recreateChartIfNeeded (sensorId : Sensor) (newType : ChartType) (label : String)
    (w : World) : Result :=
  match w.charts sensorId with
  | none => Except.error ("TypeError: chart is undefined", w)
  | some chart =>
    if chart.type ≠ newType then
      Except.ok (createChart sensorId newType label { w with destroyed := w.destroyed ++ [chart.uid] })
    else
      Except.ok { w with charts := setAt w.charts sensorId (some { chart with label := label }) }

/-- The function `initTransmissionChart`. -/
def initTransmissionChart (w : World) : World :=
  { w with
    transmission := some { uid := w.nextChartUid, bed1 := [], bed2 := [], updates := 0 }
    nextChartUid := w.nextChartUid + 1 }

/-- The function `updateTransmissionChart`. -/
def updateTransmissionChart (bed1Data bed2Data : List Datum) (w : World) : Result :=
  match w.transmission with
  | none => Except.error ("TypeError: chart is undefined", w)
  | some chart =>
    Except.ok { w with
      transmission := some { chart with bed1 := bed1Data, bed2 := bed2Data, updates := chart.updates + 1 } }

/-! ## Page utilities -/

/-- The function `updateMetricsUI`, for the sensor whose readouts carry the prefix. -/
def updateMetricsUI (sensorId : Sensor) (ppfd dli rfr : Text) (w : World) : World :=
  { w with metrics := setAt w.metrics sensorId (some { ppfd := ppfd, dli := dli, rfr := rfr }) }

/-- The function `resetMetrics`. -/
def resetMetrics (w : World) : World :=
  [Sensor.Referencia, Sensor.Cama_1, Sensor.Cama_2].foldl
    (fun w sensorId => updateMetricsUI sensorId (Text.lit "---") (Text.lit "---") (Text.lit "---") w) w

/-- The function `updateHeatmap`; `mapLuxToColor(lux)` takes its default range. -/
def updateHeatmap (sensorId : Sensor) (lux : ℚ) (w : World) : World :=
  { w with heatmap := setAt w.heatmap sensorId (some (mapLuxToColor (some lux) 0 2000)) }

/-- The function `updateChartTitles`. -/
def updateChartTitles (sensorId : Sensor) (title subtitle : String) (w : World) : World :=
  { w with titles := setAt w.titles sensorId (some (title, subtitle)) }

/-! ## Live view: rendering of a current reading -/

/-- The method `Array.prototype.map`, whose callback also receives the index. -/
def mapIdxFrom {α β : Type} (f : α → Nat → β) : Nat → List α → List β
  | _, [] => []
  | i, x :: xs => f x i :: mapIdxFrom f (i + 1) xs

/-- The local object `transmissionData`. -/
structure TransmissionData where
  bed1 : List Datum
  bed2 : List Datum

/-- The array `refData`: the reference spectrum, or the empty array when the
response has no `Referencia`. -/
def refDataOf (data : LiveData) : List ℚ :=
  match data.lookup "Referencia" with
  | some reference => DATA_KEYS.map fun key => orZero (reference.lookup key)
  | none => []

/-- The array `spectralData` of a reading. -/
def spectralDataOf (sensorData : Reading) : List ℚ :=
  DATA_KEYS.map fun key => orZero (sensorData.lookup key)

/-- The array `tData`: the transmission of every channel against the reference. -/
def tDataOf (spectralData refData : List ℚ) : List Datum :=
  mapIdxFrom (fun val i =>
    match refData.get? i with
    | some refVal =>
        if 0 < refVal then
          Datum.text (toFixed 1
            (JsNum.mul (JsNum.div (JsNum.fin val) (JsNum.fin refVal)) (JsNum.fin 100)))
        else Datum.num 0
    | none => Datum.num 0) 0 spectralData

/-- The value `rfr` shown for a live reading. -/
def rfrOf (sensorData : Reading) : Text :=
  if JsNum.gt (toNumber (sensorData.lookup "ch_730")) (JsNum.fin 0) then
    toFixed 2 (JsNum.div (toNumber (sensorData.lookup "ch_680"))
      (toNumber (sensorData.lookup "ch_730")))
  else Text.lit "N/A"

/-- The writes to `state.charts[sensorId]` of the live view, followed by `update()`. -/
def showSpectrum (sensorId : Sensor) (spectralData : List ℚ) (w : World) : World :=
  { w with charts := setAt w.charts sensorId ((w.charts sensorId).map fun c =>
      { c with labels := some SPECTRAL_LABELS, data := spectralData.map Datum.num,
               xType := "category", updates := c.updates + 1 }) }

/-- One iteration of the loop over `SENSOR_MAPPING` in `fetchAndDisplayLiveData`. -/
def liveSensor (data : LiveData) (refData : List ℚ) (sensorId : Sensor)
    (acc : World × TransmissionData) : Except (String × World) (World × TransmissionData) :=
  match data.lookup sensorId.name with
  | none => Except.ok acc
  | some sensorData =>
    match recreateChartIfNeeded sensorId ChartType.bar ("Espectro " ++ sensorId.name) acc.1 with
    | Except.error e => Except.error e
    | Except.ok w1 =>
      let spectralData := spectralDataOf sensorData
      let w2 := showSpectrum sensorId spectralData w1
      let w3 := updateChartTitles sensorId ("Espectro de " ++ sensorId.name ++ " (En Vivo)")
        "Canales del sensor AS7341." w2
      let ppfd := orZero (sensorData.lookup "ppfd_total")
      let rfr := rfrOf sensorData
      let w4 := updateMetricsUI sensorId (toFixed 0 (JsNum.fin ppfd)) (Text.lit "---") rfr w3
      let w5 := updateHeatmap sensorId (orZero (sensorData.lookup "total_lux")) w4
      if sensorId ≠ Sensor.Referencia ∧ refData.length > 0 then
        let tData := tDataOf spectralData refData
        Except.ok (w5,
          { bed1 := if sensorId = Sensor.Cama_1 then tData else acc.2.bed1
            bed2 := if sensorId = Sensor.Cama_2 then tData else acc.2.bed2 })
      else Except.ok (w5, acc.2)

/-- The statements of `fetchAndDisplayLiveData` that follow the parsing of the body. -/
def liveRender (data : LiveData) (w : World) : Result :=
  let refData := refDataOf data
  match liveSensor data refData Sensor.Referencia (w, { bed1 := [], bed2 := [] }) with
  | Except.error e => Except.error e
  | Except.ok a1 =>
    match liveSensor data refData Sensor.Cama_1 a1 with
    | Except.error e => Except.error e
    | Except.ok a2 =>
      match liveSensor data refData Sensor.Cama_2 a2 with
      | Except.error e => Except.error e
      | Except.ok a3 => updateTransmissionChart a3.2.bed1 a3.2.bed2 a3.1

/-- The `try` block of `fetchAndDisplayLiveData`, from the moment the `fetch` ends. -/
def liveTry (r : Response LiveData) (w : World) : Result :=
  match r with
  | Response.networkError => Except.error ("TypeError: Failed to fetch", w)
  | Response.http ok statusText body =>
    if !ok then Except.error ("Error: Error en API (live): " ++ statusText, w)
    else match body with
      | Body.unparsable => Except.error ("SyntaxError: Unexpected token", w)
      | Body.null => Except.error ("TypeError: Cannot read properties of null", w)
      | Body.obj data => liveRender data w

/-- The function `fetchAndDisplayLiveData`, up to its `await fetch(...)`. -/
def fetchAndDisplayLiveData_begin (w : World) : World :=
  { w with requests := w.requests ++ [apiUrl "live"] }

/-- The console line that the `catch` of `fetchAndDisplayLiveData` writes. -/
def liveErrorLine (e : String) : String :=
  "Error en el ciclo \x27En Vivo\x27, reintentando en 5s: " ++ e

/-- The function `fetchAndDisplayLiveData`, resumed when its `fetch` ends: the
`try` block, and the `catch` that logs the error and does not throw again. -/
def fetchAndDisplayLiveData_resume (r : Response LiveData) (w : World) : Result :=
  match liveTry r w with
  | Except.ok w1 => Except.ok w1
  | Except.error (e, w1) => Except.ok { w1 with console := w1.console ++ [liveErrorLine e] }

/-! ## Historical views -/

/-- One iteration of the loop over `SENSOR_MAPPING` in `fetchAndDisplayHistoricalData`. -/
def histSensor (groupedData : HistData) (sensorId : Sensor) (w : World) : Result :=
  match groupedData.lookup sensorId.name with
  | some (r :: rs) =>
    match recreateChartIfNeeded sensorId ChartType.line ("Historial PPFD " ++ sensorId.name) w with
    | Except.error e => Except.error e
    | Except.ok w1 =>
      let chartData := (r :: rs).map fun p => Datum.point p.created_at (orZero p.ppfd_total)
      let w2 := { w1 with charts := setAt w1.charts sensorId ((w1.charts sensorId).map fun c =>
        { c with labels := none, data := chartData, xType := "time", updates := c.updates + 1 }) }
      let rangeText := if w2.view = View.today then "de Hoy" else "de 7 Días"
      Except.ok (updateChartTitles sensorId
        ("Historial PPFD de " ++ sensorId.name ++ " (" ++ rangeText ++ ")")
        "Evolución de μmol·m⁻²·s⁻¹." w2)
  | _ =>
    match w.charts sensorId with
    | none => Except.error ("TypeError: chart is undefined", w)
    | some c =>
      Except.ok { w with
        charts := setAt w.charts sensorId (some { c with data := [], updates := c.updates + 1 }) }

/-- The function `fetchAndDisplayHistoricalData`, resumed when its `fetch` ends. -/
def fetchAndDisplayHistoricalData_resume (r : Response HistData) (w : World) : Result :=
  match r with
  | Response.networkError => Except.error ("TypeError: Failed to fetch", w)
  | Response.http ok statusText body =>
    if !ok then Except.error ("Error: Error en API (historical): " ++ statusText, w)
    else match body with
      | Body.unparsable => Except.error ("SyntaxError: Unexpected token", w)
      | Body.null => Except.error ("TypeError: Cannot read properties of null", w)
      | Body.obj groupedData =>
        match histSensor groupedData Sensor.Referencia w with
        | Except.error e => Except.error e
        | Except.ok w1 =>
          match histSensor groupedData Sensor.Cama_1 w1 with
          | Except.error e => Except.error e
          | Except.ok w2 => histSensor groupedData Sensor.Cama_2 w2

/-- The loop over the keys of `summaryData` in `fetchAndDisplaySummaryData`. -/
def summaryLoop : List (String × SummaryEntry) → World → Result
  | [], w => Except.ok w
  | (sensorId, entry) :: rest, w =>
    match Sensor.ofName sensorId with
    | none => Except.error ("TypeError: Cannot destructure property of undefined", w)
    | some sensor =>
      match entry.dli with
      | none => Except.error ("TypeError: Cannot read properties of undefined (reading toFixed)", w)
      | some dli =>
        match entry.avg_rfr with
        | none =>
          Except.error ("TypeError: Cannot read properties of undefined (reading toFixed)", w)
        | some avg_rfr =>
          summaryLoop rest (updateMetricsUI sensor (Text.lit "---")
            (toFixed 2 (JsNum.fin dli)) (toFixed 2 (JsNum.fin avg_rfr)) w)

/-- The function `fetchAndDisplaySummaryData`, resumed when its `fetch` ends. -/
def fetchAndDisplaySummaryData_resume (r : Response SummaryData) (w : World) : Result :=
  match r with
  | Response.networkError => Except.error ("TypeError: Failed to fetch", w)
  | Response.http ok statusText body =>
    if !ok then Except.error ("Error: Error en API (summary): " ++ statusText, w)
    else match body with
      | Body.unparsable => Except.error ("SyntaxError: Unexpected token", w)
      | Body.null => Except.ok w
      | Body.obj summaryData => summaryLoop summaryData w

/-! ## View-state machine -/

/-- The browser function `setInterval`: a new timer with a new positive handle. -/
def setInterval (delay : Nat) (w : World) : World × Nat :=
  ({ w with timers := w.timers ++ [{ id := w.nextTimerId + 1, delay := delay }]
            nextTimerId := w.nextTimerId + 1 }, w.nextTimerId + 1)

/-- The browser function `clearInterval`. -/
def clearInterval (id : Nat) (w : World) : World :=
  { w with timers := w.timers.filter fun t => t.id ≠ id }

/-- The `finally` block of `updateDashboard`. -/
def updateDashboard_finally (w : World) : World :=
  if w.view = View.live ∧ truthy w.updateIntervalId = false then
    { (setInterval LIVE_UPDATE_INTERVAL w).1 with
      updateIntervalId := some (setInterval LIVE_UPDATE_INTERVAL w).2 }
  else w

/-- The `catch` block of `updateDashboard`. -/
def updateDashboard_catch (e : String) (w : World) : World :=
  { w with console := w.console ++ ["Error al actualizar el dashboard: " ++ e] }

/-- The function `updateDashboard`, up to its first `await`: the requests of the
current view are issued and the cycle is recorded as in flight. -/
def updateDashboard (w : World) : World :=
  let w0 := { w with dashboardCalls := w.dashboardCalls + 1 }
  if w0.view = View.live then
    let w1 := fetchAndDisplayLiveData_begin w0
    { w1 with pending := w1.pending ++ [Pending.liveCycle] }
  else
    let rangeKey := w0.view.key
    let w1 := { w0 with requests := w0.requests ++ [apiUrl ("historical_" ++ rangeKey)] }
    let w2 := { w1 with requests := w1.requests ++ [apiUrl ("summary_" ++ rangeKey)] }
    { w2 with pending := w2.pending ++ [Pending.histCycle true true false] }

/-- The function `setView`. -/
def setView (newView : View) (w : World) : World :=
  if w.view = newView then w
  else
    let w1 := { w with view := newView }
    let w2 :=
      match w1.updateIntervalId with
      | some id =>
          if truthy (some id) then { clearInterval id w1 with updateIntervalId := none } else w1
      | none => w1
    let w3 := { w2 with activeBtn := some newView }
    let w4 := resetMetrics w3
    updateDashboard w4

/-- The function `init`. -/
def init (w : World) : World :=
  let w1 := [Sensor.Referencia, Sensor.Cama_1, Sensor.Cama_2].foldl
    (fun w sensorId => createChart sensorId ChartType.bar ("Espectro " ++ sensorId.name) w) w
  let w2 := initTransmissionChart w1
  let w3 := { w2 with listeners := true }
  setView View.live w3

/-- The world when the script starts: the literal `state` of the source, an
untouched page and an idle browser. -/
def initialWorld : World :=
  { view := View.live
    updateIntervalId := none
    charts := fun _ => none
    transmission := none
    metrics := fun _ => none
    heatmap := fun _ => none
    titles := fun _ => none
    activeBtn := none
    listeners := false
    timers := []
    nextTimerId := 0
    nextChartUid := 0
    destroyed := []
    pending := []
    requests := []
    console := []
    dashboardCalls := 0 }

/-! ## Events of the browser -/

/-- What can happen after the script has started.
* `click v`: the user clicks the button of view `v`;
* `timerFires id`: the interval timer `id` fires;
* `liveResponse i r`: the request of the in-flight operation number `i` (a live
  cycle or a timer tick) ends with `r`;
* `histResponse i r`, `sumResponse i r`: the historical (summary) request of the
  in-flight cycle number `i` ends with `r`. -/
inductive Event where
  | click (v : View)
  | timerFires (id : Nat)
  | liveResponse (i : Nat) (r : Response LiveData)
  | histResponse (i : Nat) (r : Response HistData)
  | sumResponse (i : Nat) (r : Response SummaryData)

/-- The progress of `Promise.all` in a non-live cycle once one of its two requests
has ended with `res`; `other` says whether the other request is still in flight.
A first rejection runs `catch` and `finally`; the second fulfilment runs `finally`. -/
def settle (res : Result) (other settled : Bool) : World × Bool :=
  match res with
  | Except.ok w1 =>
      if settled then (w1, true)
      else if other then (w1, false)
      else (updateDashboard_finally w1, true)
  | Except.error (e, w1) =>
      if settled then (w1, true)
      else (updateDashboard_finally (updateDashboard_catch e w1), true)

/-- The in-flight table after a request of cycle `i` has ended: the cycle leaves
the table when neither request is in flight any more. -/
def afterRequest (pending : List Pending) (i : Nat) (h s settled : Bool) : List Pending :=
  if h || s then pending.set i (Pending.histCycle h s settled) else pending.eraseIdx i

/-- One event of the browser; an event that is not enabled changes nothing. -/
def step (w : World) : Event → World
  | Event.click v => if w.listeners then setView v w else w
  | Event.timerFires id =>
      if w.timers.any (fun t => t.id = id) then
        let w1 := fetchAndDisplayLiveData_begin w
        { w1 with pending := w1.pending ++ [Pending.liveTick] }
      else w
  | Event.liveResponse i r =>
      match w.pending.get? i with
      | some Pending.liveCycle =>
          match fetchAndDisplayLiveData_resume r { w with pending := w.pending.eraseIdx i } with
          | Except.ok w1 => updateDashboard_finally w1
          | Except.error (e, w1) => updateDashboard_finally (updateDashboard_catch e w1)
      | some Pending.liveTick =>
          (fetchAndDisplayLiveData_resume r { w with pending := w.pending.eraseIdx i }).world
      | _ => w
  | Event.histResponse i r =>
      match w.pending.get? i with
      | some (Pending.histCycle true s settled) =>
          let out := settle (fetchAndDisplayHistoricalData_resume r w) s settled
          { out.1 with pending := afterRequest out.1.pending i false s out.2 }
      | _ => w
  | Event.sumResponse i r =>
      match w.pending.get? i with
      | some (Pending.histCycle h true settled) =>
          let out := settle (fetchAndDisplaySummaryData_resume r w) h settled
          { out.1 with pending := afterRequest out.1.pending i h false out.2 }
      | _ => w

/-- A sequence of events, from a given world. -/
def run (w : World) (events : List Event) : World :=
  events.foldl step w

/-- The timers that `state.updateIntervalId` accounts for: the stored handle with
the live interval, or none. -/
def storedTimers (w : World) : List Timer :=
  match w.updateIntervalId with
  | some id => [{ id := id, delay := LIVE_UPDATE_INTERVAL }]
  | none => []

/-- The number of requests sent to the live endpoint so far. -/
def liveRequests (w : World) : Nat :=
  w.requests.count (apiUrl "live")

/-! ## Control part of the world

The view, the stored handle, the active timers, the handle counter and the
requests issued.  Rendering never touches them. -/

/-- The control part of a world. -/
structure Ctrl where
  view : View
  updateIntervalId : Option Nat
  timers : List Timer
  nextTimerId : Nat
  requests : List String

/-- The control part of a world. -/
def ctrl (w : World) : Ctrl :=
  { view := w.view, updateIntervalId := w.updateIntervalId, timers := w.timers,
    nextTimerId := w.nextTimerId, requests := w.requests }

/-- The world an iteration of the live loop ends in, thrown or not. -/
def accWorld : Except (String × World) (World × TransmissionData) → World
  | Except.ok a => a.1
  | Except.error (_, w) => w

/-- The effect of the `finally` block of `updateDashboard` on the control part. -/
def finallyC (c : Ctrl) : Ctrl :=
  if c.view = View.live ∧ truthy c.updateIntervalId = false then
    { c with timers := c.timers ++ [{ id := c.nextTimerId + 1, delay := LIVE_UPDATE_INTERVAL }]
             nextTimerId := c.nextTimerId + 1
             updateIntervalId := some (c.nextTimerId + 1) }
  else c

/-- The requests `updateDashboard` issues in a given view. -/
def cycleRequests (v : View) : List String :=
  if v = View.live then [apiUrl "live"]
  else [apiUrl ("historical_" ++ v.key), apiUrl ("summary_" ++ v.key)]

/-- The effect of `setView` on the control part. -/
def setViewC (newView : View) (c : Ctrl) : Ctrl :=
  if c.view = newView then c
  else
    match c.updateIntervalId with
    | some id =>
        if truthy (some id) then
          { c with view := newView, timers := c.timers.filter (fun t => t.id ≠ id),
                   updateIntervalId := none, requests := c.requests ++ cycleRequests newView }
        else { c with view := newView, requests := c.requests ++ cycleRequests newView }
    | none => { c with view := newView, requests := c.requests ++ cycleRequests newView }

/-- The control invariant: the active timers are exactly the stored handle, with
the live interval, and a stored handle is positive. -/
def Inv (c : Ctrl) : Prop :=
  c.timers = (match c.updateIntervalId with
    | some id => [{ id := id, delay := LIVE_UPDATE_INTERVAL }]
    | none => []) ∧
  ∀ id, c.updateIntervalId = some id → 0 < id

/-- The effect an event may have on the control part: a click acts as `setView`
(when the handlers are installed), a firing timer issues one live request, and the
end of a request leaves the control part alone or runs the `finally` block. -/
def StepC (c c1 : Ctrl) : Event → Prop
  | Event.click v => c1 = c ∨ c1 = setViewC v c
  | Event.timerFires id =>
      c1 = c ∨ ((∃ t ∈ c.timers, t.id = id) ∧ c1 = { c with requests := c.requests ++ [apiUrl "live"] })
  | Event.liveResponse _ _ => c1 = c ∨ c1 = finallyC c
  | Event.histResponse _ _ => c1 = c ∨ c1 = finallyC c
  | Event.sumResponse _ _ => c1 = c ∨ c1 = finallyC c

/-- The state of the view switch that holds between a `setView` to a non-live view
and the next `setView('live')`: no timer, no stored handle, and `n` live requests. -/
def Quiet (n : Nat) (c : Ctrl) : Prop :=
  c.view ≠ View.live ∧ c.timers = [] ∧ c.updateIntervalId = none ∧
    c.requests.count (apiUrl "live") = n

/-- A world in the live view with an active polling timer: the page is loaded,
the user goes to `today` and back to `live`, and the live request then fails. -/
def pollingWorld : World :=
  run (init initialWorld)
    [Event.click View.today, Event.click View.live, Event.liveResponse 1 Response.networkError]

/-- Events after leaving the live view: the requests still in flight end (one
fails, one succeeds with an empty body), a stale timer handle fires, and the user
moves on to the seven-day view. -/
def quietEvents : List Event :=
  [Event.histResponse 0 Response.networkError,
   Event.sumResponse 0 (Response.http true "OK" (Body.obj [])),
   Event.timerFires 1,
   Event.click View.sevenDays,
   Event.histResponse 1 (Response.http true "OK" (Body.obj [])),
   Event.sumResponse 1 (Response.http false "Bad Gateway" Body.unparsable)]

/-- The charts exist: the state of the chart table once `init` has run. -/
def Ready (w : World) : Prop :=
  (∀ s, (w.charts s).isSome = true) ∧ w.transmission.isSome = true

/-- The series an iteration of the live loop leaves in `transmissionData` for the
sensor it visits, given the series held before. -/
def seriesStep (data : LiveData) (refData : List ℚ) (s : Sensor) (old : List Datum) :
    List Datum :=
  match data.lookup s.name with
  | some sensorData =>
      if 0 < refData.length then tDataOf (spectralDataOf sensorData) refData else old
  | none => old

/-- The three readouts `updateMetricsUI` receives for a live reading. -/
def liveMetrics (sensorData : Reading) : Metrics :=
  { ppfd := toFixed 0 (JsNum.fin (orZero (sensorData.lookup "ppfd_total")))
    dli := Text.lit "---"
    rfr := rfrOf sensorData }

/-- The metric readouts an iteration of the live loop leaves for the sensor it
visits, given the readouts shown before. -/
def metricsStep (data : LiveData) (s : Sensor) (old : Option Metrics) : Option Metrics :=
  match data.lookup s.name with
  | some sensorData => some (liveMetrics sensorData)
  | none => old

/-- A reference reading with every channel at 100. -/
def sampleReference : Reading :=
  [("ch_415", 100), ("ch_440", 100), ("ch_485", 100), ("ch_515", 100), ("ch_555", 100),
   ("ch_590", 100), ("ch_610", 100), ("ch_680", 100), ("ch_730", 100), ("ch_760", 100),
   ("ch_860", 100), ("ch_clear", 100), ("total_lux", 800), ("ppfd_total", 120)]

/-- A bed reading: channel 1 at 50, channel 2 at 100, `ch_680 = 40`, `ch_730 = 80`. -/
def sampleBed : Reading :=
  [("ch_415", 50), ("ch_440", 100), ("ch_485", 100), ("ch_515", 100), ("ch_555", 100),
   ("ch_590", 100), ("ch_610", 100), ("ch_680", 40), ("ch_730", 80), ("ch_760", 100),
   ("ch_860", 100), ("ch_clear", 100), ("total_lux", 400), ("ppfd_total", 60)]

/-- A live response with the reference and the first bed. -/
def sampleLive : LiveData :=
  [("Referencia", sampleReference), ("Cama_1", sampleBed)]

/-- A live response with the first bed only: `Referencia` is absent. -/
def bedOnlyLive : LiveData :=
  [("Cama_1", sampleBed)]

/-- A bed reading in which the field `ch_680` is missing (`ch_730 = 80`). -/
def bedWithout680 : Reading :=
  [("ch_415", 50), ("ch_730", 80), ("total_lux", 400), ("ppfd_total", 60)]

/-- The same reading with the field `ch_680` present and equal to `0`. -/
def bedZero680 : Reading :=
  [("ch_415", 50), ("ch_680", 0), ("ch_730", 80), ("total_lux", 400), ("ppfd_total", 60)]

/-- A bed reading whose 730 nm channel is `0`. -/
def darkBed : Reading :=
  [("ch_680", 40), ("ch_730", 0)]

/-- A summary whose entry has no field `dli`. -/
def summaryMissingDli : SummaryData :=
  [("Referencia", { dli := none, avg_rfr := some 1 })]

/-- The same summary with the field `dli` present and equal to `0`. -/
def summaryZeroDli : SummaryData :=
  [("Referencia", { dli := some 0, avg_rfr := some 1 })]

/-- Whether an event is a click on a view button. -/
def isClick : Event → Bool
  | Event.click _ => true
  | _ => false

/-- A call `recreateChartIfNeeded(sensorId, canvasId, newType, label, color)`, with
the arguments the embedding carries. -/
structure Call where
  sensorId : Sensor
  newType : ChartType
  label : String

/-- A sequence of calls of `recreateChartIfNeeded`, one after the other; a call that
throws ends the sequence. -/
def recreateAll : List Call → World → Result
  | [], w => Except.ok w
  | k :: rest, w =>
    match recreateChartIfNeeded k.sensorId k.newType k.label w with
    | Except.ok w1 => recreateAll rest w1
    | Except.error e => Except.error e

/-- The number of `destroy()` performed by the calls of a sequence that are made
for sensor `s`. -/
def destroysOf (s : Sensor) : List Call → World → Nat
  | [], _ => 0
  | k :: rest, w =>
    match recreateChartIfNeeded k.sensorId k.newType k.label w with
    | Except.ok w1 =>
        (if k.sensorId = s then w1.destroyed.length - w.destroyed.length else 0)
          + destroysOf s rest w1
    | Except.error _ => 0

/-- The number of `new Chart` performed by the calls of a sequence that are made
for sensor `s`. -/
def createsOf (s : Sensor) : List Call → World → Nat
  | [], _ => 0
  | k :: rest, w =>
    match recreateChartIfNeeded k.sensorId k.newType k.label w with
    | Except.ok w1 =>
        (if k.sensorId = s then w1.nextChartUid - w.nextChartUid else 0)
          + createsOf s rest w1
    | Except.error _ => 0

/-- The types a sequence of calls requires for sensor `s`, in order. -/
def requestedFor (s : Sensor) (calls : List Call) : List ChartType :=
  (calls.filter fun k => k.sensorId = s).map fun k => k.newType

/-- The number of type changes along a sequence of required types, starting from
the current type. -/
def typeChanges : ChartType → List ChartType → Nat
  | _, [] => 0
  | cur, t :: ts => (if cur ≠ t then 1 else 0) + typeChanges t ts

/-- A sequence of calls as the view switches produce it: the first bed is asked
for a line chart twice, the reference once, then the first bed for a bar chart
twice. -/
def sampleCalls : List Call :=
  [{ sensorId := Sensor.Cama_1, newType := ChartType.line, label := "Historial PPFD Cama_1" },
   { sensorId := Sensor.Cama_1, newType := ChartType.line, label := "Historial PPFD Cama_1" },
   { sensorId := Sensor.Referencia, newType := ChartType.line,
     label := "Historial PPFD Referencia" },
   { sensorId := Sensor.Cama_1, newType := ChartType.bar, label := "Espectro Cama_1" },
   { sensorId := Sensor.Cama_1, newType := ChartType.bar, label := "Espectro Cama_1" }]

/-- A reference reading with `ch_415 = 400` and `ch_440 = 80`. -/
def tieReference : Reading :=
  [("ch_415", 400), ("ch_440", 80)]

/-- A bed reading whose exact quotients fall half way between two decimals:
`29/400 * 100 = 7.25`, `23/80 * 100 = 28.75` and `6/80 = 0.075`. -/
def tieBed : Reading :=
  [("ch_415", 29), ("ch_440", 23), ("ch_680", 6), ("ch_730", 80)]

/-- A live response with the two readings above. -/
def tieLive : LiveData :=
  [("Referencia", tieReference), ("Cama_1", tieBed)]

theorem ctrl_createChart (s : Sensor) (t : ChartType) (l : String) (w : World) :
    ctrl (createChart s t l w) = ctrl w := rfl

theorem ctrl_recreateChartIfNeeded (s : Sensor) (t : ChartType) (l : String) (w : World) :
    ctrl (recreateChartIfNeeded s t l w).world = ctrl w := by
  unfold recreateChartIfNeeded
  split
  · rfl
  · split <;> rfl

theorem ctrl_updateTransmissionChart (a b : List Datum) (w : World) :
    ctrl (updateTransmissionChart a b w).world = ctrl w := by
  unfold updateTransmissionChart
  split <;> rfl

theorem ctrl_updateMetricsUI (s : Sensor) (a b c : Text) (w : World) :
    ctrl (updateMetricsUI s a b c w) = ctrl w := rfl

theorem ctrl_resetMetrics (w : World) : ctrl (resetMetrics w) = ctrl w := rfl

theorem ctrl_liveSensor (data : LiveData) (refData : List ℚ) (s : Sensor)
    (acc : World × TransmissionData) :
    ctrl (accWorld (liveSensor data refData s acc)) = ctrl acc.1 := by
  unfold liveSensor
  split
  · rfl
  · have h := ctrl_recreateChartIfNeeded s ChartType.bar ("Espectro " ++ s.name) acc.1
    split
    · next e he => rw [he] at h; exact h
    · next w1 he =>
      rw [he] at h
      dsimp only
      split <;> exact h

theorem ctrl_liveRender (data : LiveData) (w : World) :
    ctrl (liveRender data w).world = ctrl w := by
  unfold liveRender
  dsimp only
  have h1 := ctrl_liveSensor data (refDataOf data) Sensor.Referencia (w, { bed1 := [], bed2 := [] })
  split
  · next e he => rw [he] at h1; exact h1
  · next a1 he1 =>
    rw [he1] at h1
    have h2 := ctrl_liveSensor data (refDataOf data) Sensor.Cama_1 a1
    split
    · next e he => rw [he] at h2; exact h2.trans h1
    · next a2 he2 =>
      rw [he2] at h2
      have h3 := ctrl_liveSensor data (refDataOf data) Sensor.Cama_2 a2
      split
      · next e he => rw [he] at h3; exact h3.trans (h2.trans h1)
      · next a3 he3 =>
        rw [he3] at h3
        exact (ctrl_updateTransmissionChart _ _ _).trans (h3.trans (h2.trans h1))

theorem ctrl_liveTry (r : Response LiveData) (w : World) :
    ctrl (liveTry r w).world = ctrl w := by
  unfold liveTry
  split
  · rfl
  · split
    · rfl
    · split
      · rfl
      · rfl
      · exact ctrl_liveRender _ _

theorem liveResume_ok (r : Response LiveData) (w : World) :
    ∃ w1, fetchAndDisplayLiveData_resume r w = Except.ok w1 := by
  unfold fetchAndDisplayLiveData_resume
  split
  · exact ⟨_, rfl⟩
  · exact ⟨_, rfl⟩

theorem ctrl_liveResume (r : Response LiveData) (w : World) :
    ctrl (fetchAndDisplayLiveData_resume r w).world = ctrl w := by
  have h := ctrl_liveTry r w
  unfold fetchAndDisplayLiveData_resume
  split
  · next w1 he => rw [he] at h; exact h
  · next e w1 he => rw [he] at h; exact h

theorem ctrl_histSensor (g : HistData) (s : Sensor) (w : World) :
    ctrl (histSensor g s w).world = ctrl w := by
  unfold histSensor
  split
  · have h := ctrl_recreateChartIfNeeded s ChartType.line ("Historial PPFD " ++ s.name) w
    split
    · next e he => rw [he] at h; exact h
    · next w1 he => rw [he] at h; exact h
  · split <;> rfl

theorem ctrl_histResume (r : Response HistData) (w : World) :
    ctrl (fetchAndDisplayHistoricalData_resume r w).world = ctrl w := by
  unfold fetchAndDisplayHistoricalData_resume
  split
  · rfl
  · split
    · rfl
    · split
      · rfl
      · rfl
      · next g =>
        have h1 := ctrl_histSensor g Sensor.Referencia w
        split
        · next e he => rw [he] at h1; exact h1
        · next w1 he1 =>
          rw [he1] at h1
          have h2 := ctrl_histSensor g Sensor.Cama_1 w1
          split
          · next e he => rw [he] at h2; exact h2.trans h1
          · next w2 he2 =>
            rw [he2] at h2
            exact (ctrl_histSensor g Sensor.Cama_2 w2).trans (h2.trans h1)

theorem ctrl_summaryLoop (l : List (String × SummaryEntry)) (w : World) :
    ctrl (summaryLoop l w).world = ctrl w := by
  induction l generalizing w with
  | nil => rfl
  | cons x rest ih =>
    obtain ⟨sensorId, entry⟩ := x
    unfold summaryLoop
    split
    · rfl
    · split
      · rfl
      · split
        · rfl
        · exact (ih _).trans (ctrl_updateMetricsUI _ _ _ _ _)

theorem ctrl_sumResume (r : Response SummaryData) (w : World) :
    ctrl (fetchAndDisplaySummaryData_resume r w).world = ctrl w := by
  unfold fetchAndDisplaySummaryData_resume
  split
  · rfl
  · split
    · rfl
    · split
      · rfl
      · rfl
      · exact ctrl_summaryLoop _ _

theorem ctrl_finally (w : World) :
    ctrl (updateDashboard_finally w) = finallyC (ctrl w) := by
  unfold updateDashboard_finally finallyC
  by_cases h : w.view = View.live ∧ truthy w.updateIntervalId = false
  · rw [if_pos h, if_pos (by exact h)]; rfl
  · rw [if_neg h, if_neg (by exact h)]

theorem ctrl_catch (e : String) (w : World) : ctrl (updateDashboard_catch e w) = ctrl w := rfl

theorem ctrl_updateDashboard (w : World) :
    ctrl (updateDashboard w) = { ctrl w with requests := w.requests ++ cycleRequests w.view } := by
  unfold updateDashboard cycleRequests
  by_cases h : w.view = View.live
  · simp [h, ctrl, fetchAndDisplayLiveData_begin]
  · simp [h, ctrl]

theorem ctrl_setView (v : View) (w : World) :
    ctrl (setView v w) = setViewC v (ctrl w) := by
  unfold setView setViewC
  by_cases h : w.view = v
  · simp [h, ctrl]
  · rw [if_neg h, if_neg (by exact h)]
    simp only [ctrl_updateDashboard]
    cases hid : w.updateIntervalId with
    | none => simp [ctrl, resetMetrics, updateMetricsUI, hid]
    | some id =>
      by_cases ht : truthy (some id) = true
      · simp [ctrl, resetMetrics, updateMetricsUI, hid, ht, clearInterval]
      · simp [ctrl, resetMetrics, updateMetricsUI, hid, ht]

theorem ctrl_settle (res : Result) (other settled : Bool) :
    ctrl (settle res other settled).1 = ctrl res.world ∨
      ctrl (settle res other settled).1 = finallyC (ctrl res.world) := by
  unfold settle
  split
  · split
    · exact Or.inl rfl
    · split
      · exact Or.inl rfl
      · exact Or.inr (ctrl_finally _)
  · split
    · exact Or.inl rfl
    · exact Or.inr ((ctrl_finally _).trans (by rw [ctrl_catch]; rfl))

theorem ctrl_step (w : World) (e : Event) : StepC (ctrl w) (ctrl (step w e)) e := by
  cases e with
  | click v =>
    dsimp only [step, StepC]
    by_cases h : w.listeners = true
    · rw [if_pos h]; exact Or.inr (ctrl_setView v w)
    · rw [if_neg h]; exact Or.inl rfl
  | timerFires id =>
    dsimp only [step, StepC]
    by_cases h : (w.timers.any fun t => decide (t.id = id)) = true
    · rw [if_pos h]
      refine Or.inr ⟨?_, rfl⟩
      simpa [ctrl] using h
    · rw [if_neg h]; exact Or.inl rfl
  | liveResponse i r =>
    dsimp only [step, StepC]
    split
    · obtain ⟨w1, h1⟩ := liveResume_ok r { w with pending := w.pending.eraseIdx i }
      have h2 := ctrl_liveResume r { w with pending := w.pending.eraseIdx i }
      rw [h1] at h2 ⊢
      refine Or.inr ((ctrl_finally w1).trans ?_)
      rw [show ctrl w1 = ctrl w from h2]
    · exact Or.inl (ctrl_liveResume r _)
    · exact Or.inl rfl
  | histResponse i r =>
    dsimp only [step, StepC]
    split
    · next s settled _ =>
      have h := ctrl_settle (fetchAndDisplayHistoricalData_resume r w) s settled
      rw [ctrl_histResume] at h
      exact h
    · exact Or.inl rfl
  | sumResponse i r =>
    dsimp only [step, StepC]
    split
    · next hh settled _ =>
      have h := ctrl_settle (fetchAndDisplaySummaryData_resume r w) hh settled
      rw [ctrl_sumResume] at h
      exact h
    · exact Or.inl rfl

/-! ## The polling-timer invariant -/

theorem inv_finallyC (c : Ctrl) (h : Inv c) : Inv (finallyC c) := by
  unfold finallyC
  split
  · next hc =>
    obtain ⟨h1, h2⟩ := h
    cases hid : c.updateIntervalId with
    | none =>
      rw [hid] at h1
      refine ⟨by simp [h1], ?_⟩
      intro id hsome
      simp only [Option.some.injEq] at hsome
      omega
    | some id =>
      have hpos := h2 id hid
      have : truthy c.updateIntervalId = true := by
        rw [hid]; simp [truthy]; omega
      rw [this] at hc
      exact absurd hc.2 (by simp)
  · exact h

theorem inv_setViewC (v : View) (c : Ctrl) (h : Inv c) : Inv (setViewC v c) := by
  obtain ⟨h1, h2⟩ := h
  unfold setViewC
  split
  · exact ⟨h1, h2⟩
  · cases hid : c.updateIntervalId with
    | none =>
      rw [hid] at h1
      exact ⟨by simp [h1, hid], by simp [hid]⟩
    | some id =>
      rw [hid] at h1
      have hpos := h2 id hid
      have ht : truthy (some id) = true := by simp [truthy]; omega
      simp only [ht, if_true]
      exact ⟨by simp [h1], by simp⟩

theorem inv_stepC (c c1 : Ctrl) (e : Event) (h : Inv c) (hs : StepC c c1 e) : Inv c1 := by
  cases e with
  | click v =>
    rcases hs with hs | hs
    · rw [hs]; exact h
    · rw [hs]; exact inv_setViewC v c h
  | timerFires id =>
    rcases hs with hs | ⟨_, hs⟩
    · rw [hs]; exact h
    · rw [hs]; exact h
  | liveResponse i r =>
    rcases hs with hs | hs
    · rw [hs]; exact h
    · rw [hs]; exact inv_finallyC c h
  | histResponse i r =>
    rcases hs with hs | hs
    · rw [hs]; exact h
    · rw [hs]; exact inv_finallyC c h
  | sumResponse i r =>
    rcases hs with hs | hs
    · rw [hs]; exact h
    · rw [hs]; exact inv_finallyC c h

theorem inv_run (events : List Event) (w : World) (h : Inv (ctrl w)) :
    Inv (ctrl (run w events)) := by
  induction events generalizing w with
  | nil => exact h
  | cons e es ih => exact ih (step w e) (inv_stepC _ _ e h (ctrl_step w e))

theorem inv_init : Inv (ctrl (init initialWorld)) := by
  refine ⟨rfl, ?_⟩
  intro id hid
  have hnone : (ctrl (init initialWorld)).updateIntervalId = none := rfl
  rw [hnone] at hid
  exact absurd hid (by simp)

theorem new_timer_stepC (c c1 : Ctrl) (e : Event) (h : Inv c) (hs : StepC c c1 e)
    (t : Timer) (ht : t ∈ c1.timers) (hnot : t ∉ c.timers) :
    t.delay = LIVE_UPDATE_INTERVAL ∧ c.updateIntervalId = none ∧ c1.view = View.live := by
  have hfin : c1 = finallyC c →
      t.delay = LIVE_UPDATE_INTERVAL ∧ c.updateIntervalId = none ∧ c1.view = View.live := by
    intro hs
    subst hs
    unfold finallyC at ht ⊢
    split at ht
    · next hc =>
      rw [if_pos hc]
      simp only [List.mem_append, List.mem_singleton] at ht
      rcases ht with ht | ht
      · exact absurd ht hnot
      · refine ⟨by rw [ht], ?_, hc.1⟩
        cases hid : c.updateIntervalId with
        | none => rfl
        | some id =>
          have hpos := h.2 id hid
          have : truthy c.updateIntervalId = true := by
            rw [hid]; simp [truthy]; omega
          rw [this] at hc
          exact absurd hc.2 (by simp)
    · exact absurd ht hnot
  have hsame : c1 = c →
      t.delay = LIVE_UPDATE_INTERVAL ∧ c.updateIntervalId = none ∧ c1.view = View.live := by
    intro hs; subst hs; exact absurd ht hnot
  cases e with
  | click v =>
    rcases hs with hs | hs
    · exact hsame hs
    · subst hs
      exfalso
      apply hnot
      unfold setViewC at ht
      split at ht
      · exact ht
      · split at ht
        · split at ht
          · exact (List.mem_filter.mp ht).1
          · exact ht
        · exact ht
  | timerFires id =>
    rcases hs with hs | ⟨_, hs⟩
    · exact hsame hs
    · subst hs; exact absurd ht hnot
  | liveResponse i r => exact hs.elim hsame hfin
  | histResponse i r => exact hs.elim hsame hfin
  | sumResponse i r => exact hs.elim hsame hfin

theorem count_cycleRequests (v : View) (h : v ≠ View.live) :
    (cycleRequests v).count (apiUrl "live") = 0 := by
  cases v with
  | live => exact absurd rfl h
  | today => decide
  | sevenDays => decide

theorem quiet_stepC (n : Nat) (c c1 : Ctrl) (e : Event) (h : Quiet n c) (hs : StepC c c1 e)
    (he : e ≠ Event.click View.live) : Quiet n c1 := by
  obtain ⟨hv, ht, hid, hn⟩ := h
  have hfin : finallyC c = c := by
    unfold finallyC
    rw [if_neg (fun hc => hv hc.1)]
  cases e with
  | click v =>
    rcases hs with hs | hs
    · rw [hs]; exact ⟨hv, ht, hid, hn⟩
    · have hvl : v ≠ View.live := fun hvl => he (by rw [hvl])
      subst hs
      unfold setViewC
      split
      · exact ⟨hv, ht, hid, hn⟩
      · rw [hid]
        refine ⟨hvl, ht, rfl, ?_⟩
        show (c.requests ++ cycleRequests v).count (apiUrl "live") = n
        simp only [List.count_append, count_cycleRequests v hvl, hn, Nat.add_zero]
  | timerFires id =>
    rcases hs with hs | ⟨⟨t, htm, _⟩, _⟩
    · rw [hs]; exact ⟨hv, ht, hid, hn⟩
    · rw [ht] at htm; exact absurd htm (List.not_mem_nil t)
  | liveResponse i r =>
    rcases hs with hs | hs <;> rw [hs] <;> (try rw [hfin]) <;> exact ⟨hv, ht, hid, hn⟩
  | histResponse i r =>
    rcases hs with hs | hs <;> rw [hs] <;> (try rw [hfin]) <;> exact ⟨hv, ht, hid, hn⟩
  | sumResponse i r =>
    rcases hs with hs | hs <;> rw [hs] <;> (try rw [hfin]) <;> exact ⟨hv, ht, hid, hn⟩

theorem quiet_run (n : Nat) (events : List Event) (w : World) (h : Quiet n (ctrl w))
    (he : ∀ e ∈ events, e ≠ Event.click View.live) : Quiet n (ctrl (run w events)) := by
  induction events generalizing w with
  | nil => exact h
  | cons e es ih =>
    exact ih (step w e)
      (quiet_stepC n _ _ e h (ctrl_step w e) (he e (List.mem_cons_self e es)))
      (fun e1 h1 => he e1 (List.mem_cons_of_mem e h1))

theorem idle_step (w : World) (e : Event) (hp : w.pending = []) (ht : w.timers = [])
    (he : isClick e = false) : step w e = w := by
  cases e with
  | click v => exact absurd he (by simp [isClick])
  | timerFires id => simp [step, ht]
  | liveResponse i r => simp [step, hp]
  | histResponse i r => simp [step, hp]
  | sumResponse i r => simp [step, hp]

theorem idle_without_click (events : List Event) (w : World) (hp : w.pending = [])
    (ht : w.timers = []) : run w (events.filter fun e => !isClick e) = w := by
  induction events with
  | nil => rfl
  | cons e es ih =>
    by_cases he : isClick e = true
    · simpa [List.filter, he] using ih
    · have he1 : isClick e = false := by simpa using he
      simp only [List.filter, he1, Bool.not_false]
      show run (step w e) _ = w
      rw [idle_step w e hp ht he1]
      exact ih

/-! ## Claims on the view-state machine -/

/-- C1 (as the code behaves): `init()` run on the initial state, whose view is
already `live`, ends in `setView('live')` returning at once: `updateDashboard` has
not been invoked, no request has been issued, no refresh cycle is in flight and
no polling timer exists; and after any sequence of events without a click still
no request has been issued and `updateDashboard` has not been invoked. -/
theorem init_starts_no_refresh_cycle (events : List Event) :
    (init initialWorld).dashboardCalls = 0 ∧ (init initialWorld).requests = [] ∧
      (init initialWorld).pending = [] ∧ (init initialWorld).timers = [] ∧
      (init initialWorld).updateIntervalId = none ∧ (init initialWorld).view = View.live ∧
      (run (init initialWorld) (events.filter fun e => !isClick e)).requests = [] ∧
      (run (init initialWorld) (events.filter fun e => !isClick e)).dashboardCalls = 0 := by
  refine ⟨rfl, rfl, rfl, rfl, rfl, rfl, ?_, ?_⟩
  · rw [idle_without_click events (init initialWorld) rfl rfl]
    rfl
  · rw [idle_without_click events (init initialWorld) rfl rfl]
    rfl

/-- C2: `setView(m)` with `m` equal to the current view is a no-op: the whole
world is unchanged, in particular the view, the polling handle, the active timers,
the chart table, the displayed metrics, the requests issued and the number of
refresh cycles launched. -/
theorem setView_same_view_noop (w : World) (m : View) (h : m = w.view) :
    setView m w = w ∧ (setView m w).view = w.view ∧
      (setView m w).updateIntervalId = w.updateIntervalId ∧
      (setView m w).timers = w.timers ∧ (setView m w).charts = w.charts ∧
      (setView m w).metrics = w.metrics ∧ (setView m w).requests = w.requests ∧
      (setView m w).pending = w.pending ∧
      (setView m w).dashboardCalls = w.dashboardCalls := by
  have hw : setView m w = w := by
    unfold setView
    rw [if_pos h.symm]
  rw [hw]
  exact ⟨rfl, rfl, rfl, rfl, rfl, rfl, rfl, rfl, rfl⟩

theorem setView_same_view_noop_witness :
    View.live = pollingWorld.view ∧ setView View.live pollingWorld = pollingWorld ∧
      (setView View.live pollingWorld).requests = pollingWorld.requests :=
  ⟨rfl, (setView_same_view_noop pollingWorld View.live rfl).1,
    (setView_same_view_noop pollingWorld View.live rfl).2.2.2.2.2.2.1⟩

/-- C3: in a state in the live view whose active timers are the stored polling
handle, `setView('today')` clears the timer and sets `updateIntervalId` to null;
after any further events other than a `setView('live')` (ends of requests in
flight with any result, timer handles firing, switches between the non-live
views) there is still no active timer and no stored handle, and no request to the
live endpoint has been issued since. -/
theorem setView_today_cancels_polling (w : World) (handle : Nat) (events : List Event)
    (hview : w.view = View.live) (hid : w.updateIntervalId = some handle)
    (hpos : 0 < handle) (htimers : ∀ t ∈ w.timers, t.id = handle)
    (hev : ∀ e ∈ events, e ≠ Event.click View.live) :
    (setView View.today w).updateIntervalId = none ∧ (setView View.today w).timers = [] ∧
      (run (setView View.today w) events).timers = [] ∧
      (run (setView View.today w) events).updateIntervalId = none ∧
      (run (setView View.today w) events).view ≠ View.live ∧
      liveRequests (run (setView View.today w) events) = liveRequests w := by
  have hq : Quiet (liveRequests w) (ctrl (setView View.today w)) := by
    rw [ctrl_setView]
    unfold setViewC
    have hne : (ctrl w).view ≠ View.today := by
      show w.view ≠ View.today
      rw [hview]; decide
    rw [if_neg hne]
    have hid1 : (ctrl w).updateIntervalId = some handle := hid
    have ht : truthy (some handle) = true := by simp [truthy]; omega
    rw [hid1]
    simp only [ht, if_true]
    refine ⟨show View.today ≠ View.live by decide, ?_, rfl, ?_⟩
    · apply List.filter_eq_nil_iff.mpr
      intro t htm
      simp [htimers t htm]
    · show ((ctrl w).requests ++ cycleRequests View.today).count (apiUrl "live") = liveRequests w
      simp only [List.count_append, count_cycleRequests View.today (by decide), Nat.add_zero]
      rfl
  have hr := quiet_run _ events _ hq hev
  exact ⟨hq.2.2.1, hq.2.1, hr.2.1, hr.2.2.1, hr.1, hr.2.2.2⟩

theorem setView_today_cancels_polling_witness :
    pollingWorld.view = View.live ∧ pollingWorld.updateIntervalId = some 1 ∧
      pollingWorld.timers = [{ id := 1, delay := 5000 }] ∧
      (setView View.today pollingWorld).timers = [] ∧
      (run (setView View.today pollingWorld) quietEvents).timers = [] ∧
      (run (setView View.today pollingWorld) quietEvents).updateIntervalId = none ∧
      liveRequests (run (setView View.today pollingWorld) quietEvents) =
        liveRequests pollingWorld :=
  have h := setView_today_cancels_polling pollingWorld 1 quietEvents rfl rfl (by decide)
    (by intro t ht; have : pollingWorld.timers = [{ id := 1, delay := 5000 }] := rfl
        rw [this] at ht; simp at ht; rw [ht])
    (by intro e he; simp [quietEvents] at he; rcases he with h | h | h | h | h | h <;> simp [h])
  ⟨rfl, rfl, rfl, h.2.1, h.2.2.1, h.2.2.2.1, h.2.2.2.2.2⟩

/-- C4: in every state reachable from the loaded page by any sequence of clicks,
timer firings and ends of requests (with success or failure), at most one polling
timer is active and the active timers are exactly the handle stored in
`state.updateIntervalId`, with the 5000 ms interval; and whenever an event adds a
timer, that timer has the 5000 ms interval, no handle was stored before the event
and the view is `live`. -/
theorem at_most_one_polling_timer (events : List Event) :
    (run (init initialWorld) events).timers.length ≤ 1 ∧
      (run (init initialWorld) events).timers = storedTimers (run (init initialWorld) events) ∧
      ∀ (e : Event) (t : Timer), t ∈ (step (run (init initialWorld) events) e).timers →
        t ∉ (run (init initialWorld) events).timers →
        t.delay = 5000 ∧ (run (init initialWorld) events).updateIntervalId = none ∧
          (step (run (init initialWorld) events) e).view = View.live := by
  have hinv := inv_run events (init initialWorld) inv_init
  have h1 : (run (init initialWorld) events).timers =
      storedTimers (run (init initialWorld) events) := hinv.1
  refine ⟨?_, h1, ?_⟩
  · rw [h1]
    unfold storedTimers
    split <;> simp
  · intro e t ht hnot
    exact new_timer_stepC _ _ e hinv (ctrl_step _ e) t ht hnot

/-! ## The live rendering, iteration by iteration -/

theorem ready_init : Ready (init initialWorld) :=
  ⟨fun s => by cases s <;> rfl, rfl⟩

theorem liveSensor_spec (data : LiveData) (refData : List ℚ) (s : Sensor)
    (acc : World × TransmissionData) (hready : Ready acc.1) :
    ∃ a1, liveSensor data refData s acc = Except.ok a1 ∧ Ready a1.1 ∧
      a1.2.bed1 = (if s = Sensor.Cama_1 then seriesStep data refData s acc.2.bed1
        else acc.2.bed1) ∧
      a1.2.bed2 = (if s = Sensor.Cama_2 then seriesStep data refData s acc.2.bed2
        else acc.2.bed2) ∧
      ∀ t, a1.1.metrics t = if t = s then metricsStep data s (acc.1.metrics s)
        else acc.1.metrics t := by
  obtain ⟨hcharts, htrans⟩ := hready
  unfold liveSensor seriesStep metricsStep
  cases hd : data.lookup s.name with
  | none =>
    refine ⟨acc, rfl, ⟨hcharts, htrans⟩, by simp, by simp, ?_⟩
    intro t
    by_cases ht : t = s
    · simp [ht]
    · simp [ht]
  | some sd =>
    have hc := hcharts s
    cases hcs : acc.1.charts s with
    | none => rw [hcs] at hc; exact absurd hc (by simp)
    | some c =>
      simp only [recreateChartIfNeeded, hcs]
      by_cases hty : c.type ≠ ChartType.bar
      · rw [if_pos hty]
        dsimp only
        by_cases hcond : s ≠ Sensor.Referencia ∧ refData.length > 0
        · rw [if_pos hcond]
          refine ⟨_, rfl, ⟨?_, htrans⟩, ?_, ?_, ?_⟩
          · intro t
            by_cases ht : t = s
            · simp [updateHeatmap, updateMetricsUI, updateChartTitles, showSpectrum, createChart,
                setAt, ht]
            · simpa [updateHeatmap, updateMetricsUI, updateChartTitles, showSpectrum, createChart,
                setAt, ht] using hcharts t
          · simp [hcond.2]
          · simp [hcond.2]
          · intro t
            simp [updateHeatmap, updateMetricsUI, updateChartTitles, showSpectrum, createChart,
              setAt, liveMetrics]
        · rw [if_neg hcond]
          refine ⟨_, rfl, ⟨?_, htrans⟩, ?_, ?_, ?_⟩
          · intro t
            by_cases ht : t = s
            · simp [updateHeatmap, updateMetricsUI, updateChartTitles, showSpectrum, createChart,
                setAt, ht]
            · simpa [updateHeatmap, updateMetricsUI, updateChartTitles, showSpectrum, createChart,
                setAt, ht] using hcharts t
          · by_cases h1 : s = Sensor.Cama_1
            · have : ¬ 0 < refData.length := fun h => hcond ⟨by rw [h1]; decide, h⟩
              simp [h1, this]
            · simp [h1]
          · by_cases h2 : s = Sensor.Cama_2
            · have : ¬ 0 < refData.length := fun h => hcond ⟨by rw [h2]; decide, h⟩
              simp [h2, this]
            · simp [h2]
          · intro t
            simp [updateHeatmap, updateMetricsUI, updateChartTitles, showSpectrum, createChart,
              setAt, liveMetrics]
      · rw [if_neg hty]
        dsimp only
        by_cases hcond : s ≠ Sensor.Referencia ∧ refData.length > 0
        · rw [if_pos hcond]
          refine ⟨_, rfl, ⟨?_, htrans⟩, ?_, ?_, ?_⟩
          · intro t
            by_cases ht : t = s
            · simp [updateHeatmap, updateMetricsUI, updateChartTitles, showSpectrum, setAt, ht]
            · simpa [updateHeatmap, updateMetricsUI, updateChartTitles, showSpectrum,
                setAt, ht] using hcharts t
          · simp [hcond.2]
          · simp [hcond.2]
          · intro t
            simp [updateHeatmap, updateMetricsUI, updateChartTitles, showSpectrum, setAt,
              liveMetrics]
        · rw [if_neg hcond]
          refine ⟨_, rfl, ⟨?_, htrans⟩, ?_, ?_, ?_⟩
          · intro t
            by_cases ht : t = s
            · simp [updateHeatmap, updateMetricsUI, updateChartTitles, showSpectrum, setAt, ht]
            · simpa [updateHeatmap, updateMetricsUI, updateChartTitles, showSpectrum,
                setAt, ht] using hcharts t
          · by_cases h1 : s = Sensor.Cama_1
            · have : ¬ 0 < refData.length := fun h => hcond ⟨by rw [h1]; decide, h⟩
              simp [h1, this]
            · simp [h1]
          · by_cases h2 : s = Sensor.Cama_2
            · have : ¬ 0 < refData.length := fun h => hcond ⟨by rw [h2]; decide, h⟩
              simp [h2, this]
            · simp [h2]
          · intro t
            simp [updateHeatmap, updateMetricsUI, updateChartTitles, showSpectrum, setAt,
              liveMetrics]

theorem liveRender_spec (data : LiveData) (w : World) (hready : Ready w) :
    ∃ w1 tc, liveRender data w = Except.ok w1 ∧ w1.transmission = some tc ∧
      tc.bed1 = seriesStep data (refDataOf data) Sensor.Cama_1 [] ∧
      tc.bed2 = seriesStep data (refDataOf data) Sensor.Cama_2 [] ∧
      ∀ t, w1.metrics t = metricsStep data t (w.metrics t) := by
  unfold liveRender
  dsimp only
  obtain ⟨a1, e1, r1, b11, b12, m1⟩ :=
    liveSensor_spec data (refDataOf data) Sensor.Referencia (w, { bed1 := [], bed2 := [] }) hready
  rw [e1]
  dsimp only
  obtain ⟨a2, e2, r2, b21, b22, m2⟩ := liveSensor_spec data (refDataOf data) Sensor.Cama_1 a1 r1
  rw [e2]
  dsimp only
  obtain ⟨a3, e3, r3, b31, b32, m3⟩ := liveSensor_spec data (refDataOf data) Sensor.Cama_2 a2 r2
  rw [e3]
  dsimp only
  unfold updateTransmissionChart
  cases htr : a3.1.transmission with
  | none => have := r3.2; rw [htr] at this; exact absurd this (by simp)
  | some chart =>
    refine ⟨_, _, rfl, rfl, ?_, ?_, ?_⟩
    · simp only [b31, b21, b11]
      simp
    · simp only [b32, b22, b12]
      simp
    · intro t
      show a3.1.metrics t = _
      rw [m3 t]
      simp only [m2, m1]
      cases t <;> simp

theorem liveResume_spec (statusText : String) (data : LiveData) (w : World) (hready : Ready w) :
    ∃ w1 tc, fetchAndDisplayLiveData_resume (Response.http true statusText (Body.obj data)) w
        = Except.ok w1 ∧ w1.transmission = some tc ∧
      tc.bed1 = seriesStep data (refDataOf data) Sensor.Cama_1 [] ∧
      tc.bed2 = seriesStep data (refDataOf data) Sensor.Cama_2 [] ∧
      ∀ t, w1.metrics t = metricsStep data t (w.metrics t) := by
  obtain ⟨w1, tc, h1, h2⟩ := liveRender_spec data w hready
  refine ⟨w1, tc, ?_, h2⟩
  simp [fetchAndDisplayLiveData_resume, liveTry, h1]

/-! ## Binary64 rounding -/

theorem roundHalfEven_intCast (z : ℤ) : roundHalfEven (z : ℚ) = z := by
  unfold roundHalfEven
  simp

theorem roundHalfEven_error (x : ℚ) : |(roundHalfEven x : ℚ) - x| ≤ 1 / 2 := by
  have h1 : (⌊x⌋ : ℚ) ≤ x := Int.floor_le x
  have h2 : x < (⌊x⌋ : ℚ) + 1 := Int.lt_floor_add_one x
  unfold roundHalfEven
  rw [abs_le]
  split_ifs with ha hb hc
  · constructor <;> linarith
  · push_cast; constructor <;> linarith
  · constructor <;> linarith
  · push_cast; constructor <;> linarith

theorem toDouble_zero : toDouble 0 = JsNum.fin 0 := by
  have h : roundHalfEven (0 : ℚ) = 0 := by simpa using roundHalfEven_intCast 0
  unfold toDouble
  simp only [zero_div, h, Int.cast_zero, zero_mul, abs_zero]
  rw [if_neg (not_le.mpr (zpow_pos (by norm_num) _))]

theorem toDouble_error (q : ℚ) (h : |q| < 2 ^ (1023 : ℤ)) :
    ∃ d, toDouble q = JsNum.fin d ∧ |d - q| ≤ |q| / 2 ^ 53 + 2 ^ (-1075 : ℤ) := by
  by_cases hq : q = 0
  · subst hq
    refine ⟨0, toDouble_zero, ?_⟩
    simp only [sub_self, abs_zero, zero_div, zero_add]
    exact (zpow_pos (by norm_num) _).le
  have h2 : (2 : ℚ) ≠ 0 := by norm_num
  have hP : (0 : ℚ) < 2 ^ ulpExp q := zpow_pos (by norm_num) _
  have hr := roundHalfEven_error (q / 2 ^ ulpExp q)
  have hdiff : |(roundHalfEven (q / 2 ^ ulpExp q) : ℚ) * 2 ^ ulpExp q - q| ≤ 2 ^ ulpExp q / 2 := by
    have : (roundHalfEven (q / 2 ^ ulpExp q) : ℚ) * 2 ^ ulpExp q - q
        = ((roundHalfEven (q / 2 ^ ulpExp q) : ℚ) - q / 2 ^ ulpExp q) * 2 ^ ulpExp q := by
      rw [sub_mul, div_mul_cancel₀ _ hP.ne']
    rw [this, abs_mul, abs_of_pos hP]
    calc |(roundHalfEven (q / 2 ^ ulpExp q) : ℚ) - q / 2 ^ ulpExp q| * 2 ^ ulpExp q
        ≤ 1 / 2 * 2 ^ ulpExp q := mul_le_mul_of_nonneg_right hr hP.le
      _ = 2 ^ ulpExp q / 2 := by ring
  have htau : (0 : ℚ) < 2 ^ (-1075 : ℤ) := zpow_pos (by norm_num) _
  have hulp : (2 : ℚ) ^ ulpExp q / 2 ≤ |q| / 2 ^ 53 + 2 ^ (-1075 : ℤ) := by
    have hq0 : (0 : ℚ) ≤ |q| / 2 ^ 53 := by positivity
    rcases max_choice (Int.log 2 |q| - 52) (-1074) with hm | hm
    · have hu : ulpExp q = Int.log 2 |q| - 52 := hm
      have hpos : (0 : ℚ) < |q| := abs_pos.mpr hq
      have hle : (2 : ℚ) ^ Int.log 2 |q| ≤ |q| := by
        have := Int.zpow_log_le_self (b := 2) (by norm_num) hpos
        simpa using this
      rw [hu, zpow_sub₀ h2]
      have h52 : (2 : ℚ) ^ (52 : ℤ) = 2 ^ 52 := by norm_cast
      rw [h52]
      have : (2 : ℚ) ^ Int.log 2 |q| / 2 ^ 52 / 2 = (2 : ℚ) ^ Int.log 2 |q| / 2 ^ 53 := by
        ring
      rw [this]
      have h53 : (0 : ℚ) < 2 ^ 53 := by positivity
      have := div_le_div_of_nonneg_right hle h53.le
      linarith
    · have hu : ulpExp q = -1074 := hm
      have : (2 : ℚ) ^ (-1074 : ℤ) / 2 = 2 ^ (-1075 : ℤ) := by
        rw [show (-1075 : ℤ) = -1074 - 1 by norm_num, zpow_sub₀ h2, zpow_one]
      rw [hu, this]
      linarith
  have hbound := hdiff.trans hulp
  refine ⟨(roundHalfEven (q / 2 ^ ulpExp q) : ℚ) * 2 ^ ulpExp q, ?_, hbound⟩
  unfold toDouble
  rw [if_neg]
  rw [not_le]
  have h1 : |(roundHalfEven (q / 2 ^ ulpExp q) : ℚ) * 2 ^ ulpExp q| ≤
      |q| + (|q| / 2 ^ 53 + 2 ^ (-1075 : ℤ)) := by
    have := abs_sub_abs_le_abs_sub ((roundHalfEven (q / 2 ^ ulpExp q) : ℚ) * 2 ^ ulpExp q) q
    linarith
  have h3 : (2 : ℚ) ^ (-1075 : ℤ) ≤ 2 ^ (0 : ℤ) := zpow_le_zpow_right₀ (by norm_num) (by norm_num)
  rw [zpow_zero] at h3
  have h4 : (2 : ℚ) ^ (1024 : ℤ) = 2 * 2 ^ (1023 : ℤ) := by
    rw [show (1024 : ℤ) = 1 + 1023 by norm_num, zpow_add₀ h2, zpow_one]
  have h5 : (2 : ℚ) ^ (1 : ℤ) ≤ 2 ^ (1023 : ℤ) := zpow_le_zpow_right₀ (by norm_num) (by norm_num)
  rw [zpow_one] at h5
  have h6 : |q| / 2 ^ 53 ≤ |q| / 2 := by
    apply div_le_div_of_nonneg_left (abs_nonneg q) (by norm_num) (by norm_num)
  rw [h4]
  by_cases hq1 : |q| ≤ 2
  · linarith [abs_nonneg q]
  · push_neg at hq1
    linarith

theorem toDouble_exact (m e : ℤ) (hm : |m| < 2 ^ 53) (he1 : -1074 ≤ e) (he2 : e ≤ 971) :
    toDouble ((m : ℚ) * 2 ^ e) = JsNum.fin ((m : ℚ) * 2 ^ e) := by
  by_cases hm0 : m = 0
  · subst hm0
    simpa using toDouble_zero
  have h2 : (2 : ℚ) ≠ 0 := by norm_num
  have hPe : (0 : ℚ) < 2 ^ e := zpow_pos (by norm_num) _
  have hmq : (0 : ℚ) < |(m : ℚ)| := abs_pos.mpr (by exact_mod_cast hm0)
  have hq : (0 : ℚ) < |(m : ℚ) * 2 ^ e| := by
    rw [abs_mul, abs_of_pos hPe]; positivity
  have hmlt : |(m : ℚ)| < 2 ^ (53 : ℤ) := by
    have : ((|m| : ℤ) : ℚ) < ((2 ^ 53 : ℤ) : ℚ) := by exact_mod_cast hm
    rw [Int.cast_abs] at this
    calc |(m : ℚ)| < ((2 ^ 53 : ℤ) : ℚ) := this
      _ = 2 ^ (53 : ℤ) := by norm_cast
  have hlog : Int.log 2 |(m : ℚ) * 2 ^ e| < 53 + e := by
    rw [← Int.lt_zpow_iff_log_lt (by norm_num) hq]
    rw [abs_mul, abs_of_pos hPe]
    have : ((2 : ℕ) : ℚ) ^ (53 + e) = 2 ^ (53 : ℤ) * 2 ^ e := by
      rw [zpow_add₀ (by norm_num)]; norm_num
    rw [this]
    exact mul_lt_mul_of_pos_right hmlt hPe
  have hu : ulpExp ((m : ℚ) * 2 ^ e) ≤ e := by
    unfold ulpExp
    apply max_le
    · omega
    · exact he1
  obtain ⟨k, hk⟩ : ∃ k : ℕ, e - ulpExp ((m : ℚ) * 2 ^ e) = k := ⟨(e - ulpExp ((m : ℚ) * 2 ^ e)).toNat, by omega⟩
  have hquot : (m : ℚ) * 2 ^ e / 2 ^ ulpExp ((m : ℚ) * 2 ^ e) = ((m * 2 ^ k : ℤ) : ℚ) := by
    rw [mul_div_assoc, ← zpow_sub₀ h2, hk, zpow_natCast]
    push_cast
    ring
  have hv : (roundHalfEven ((m : ℚ) * 2 ^ e / 2 ^ ulpExp ((m : ℚ) * 2 ^ e)) : ℚ)
      * 2 ^ ulpExp ((m : ℚ) * 2 ^ e) = (m : ℚ) * 2 ^ e := by
    rw [hquot, roundHalfEven_intCast, ← hquot]
    exact div_mul_cancel₀ _ (zpow_pos (by norm_num) _).ne'
  unfold toDouble
  rw [hv, if_neg]
  rw [not_le, abs_mul, abs_of_pos hPe]
  have he : (2 : ℚ) ^ e ≤ 2 ^ (971 : ℤ) := zpow_le_zpow_right₀ (by norm_num) he2
  have : (2 : ℚ) ^ (1024 : ℤ) = 2 ^ (53 : ℤ) * 2 ^ (971 : ℤ) := by
    rw [← zpow_add₀ h2]
    norm_num
  rw [this]
  calc |(m : ℚ)| * 2 ^ e ≤ |(m : ℚ)| * 2 ^ (971 : ℤ) := mul_le_mul_of_nonneg_left he (abs_nonneg _)
    _ < 2 ^ (53 : ℤ) * 2 ^ (971 : ℤ) := mul_lt_mul_of_pos_right hmlt (zpow_pos (by norm_num) _)

theorem toDouble_intCast (m : ℤ) (hm : |m| < 2 ^ 53) : toDouble (m : ℚ) = JsNum.fin (m : ℚ) := by
  simpa using toDouble_exact m 0 hm (by norm_num) (by norm_num)

theorem ulpExp_of_bounds (q : ℚ) (k : ℤ) (h1 : (2 : ℚ) ^ k ≤ |q|) (h2 : |q| < 2 ^ (k + 1)) :
    ulpExp q = max (k - 52) (-1074) := by
  have hpos : (0 : ℚ) < |q| := lt_of_lt_of_le (zpow_pos (by norm_num) _) h1
  have hlog : Int.log 2 |q| = k := by
    have ha : k ≤ Int.log 2 |q| := by
      rw [← Int.zpow_le_iff_le_log (by norm_num) hpos]
      simpa using h1
    have hb : Int.log 2 |q| < k + 1 := by
      rw [← Int.lt_zpow_iff_log_lt (by norm_num) hpos]
      simpa using h2
    omega
  unfold ulpExp
  rw [hlog]

theorem div_fin (a b : ℚ) (hb : b ≠ 0) :
    JsNum.div (JsNum.fin a) (JsNum.fin b) = toDouble (a / b) := by
  simp [JsNum.div, hb]

theorem mul_fin (a b : ℚ) : JsNum.mul (JsNum.fin a) (JsNum.fin b) = toDouble (a * b) := rfl

theorem two_pow_seventy : (10 : ℚ) ^ 21 < 2 ^ (1023 : ℤ) := by
  have h1 : (10 : ℚ) ^ 21 < 2 ^ (70 : ℤ) := by norm_num
  have h2 : (2 : ℚ) ^ (70 : ℤ) ≤ 2 ^ (1023 : ℤ) :=
    zpow_le_zpow_right₀ (by norm_num) (by norm_num)
  exact lt_of_lt_of_le h1 h2

theorem tiny_le_one : (2 : ℚ) ^ (-1075 : ℤ) ≤ 1 := by
  have h : (2 : ℚ) ^ (-1075 : ℤ) ≤ 2 ^ (0 : ℤ) :=
    zpow_le_zpow_right₀ (by norm_num) (by norm_num)
  rwa [zpow_zero] at h

theorem div_error (a b : ℚ) (hb : b ≠ 0) (h : |a / b| ≤ 10 ^ 20) :
    ∃ D, JsNum.div (JsNum.fin a) (JsNum.fin b) = JsNum.fin D ∧
      |D - a / b| ≤ |a / b| / 2 ^ 53 + 2 ^ (-1075 : ℤ) ∧ |D| < 10 ^ 21 := by
  have hbig : |a / b| < 2 ^ (1023 : ℤ) := by
    have : (10 : ℚ) ^ 20 ≤ 10 ^ 21 := by norm_num
    exact lt_of_le_of_lt (h.trans this) two_pow_seventy
  obtain ⟨D, hD, herr⟩ := toDouble_error (a / b) hbig
  refine ⟨D, by rw [div_fin a b hb, hD], herr, ?_⟩
  have h1 := abs_sub_abs_le_abs_sub D (a / b)
  have h2 : |a / b| / 2 ^ 53 ≤ |a / b| := div_le_self (abs_nonneg _) (by norm_num)
  have h3 := tiny_le_one
  have h4 : (2 : ℚ) * 10 ^ 20 + 1 < 10 ^ 21 := by norm_num
  linarith

theorem mulDiv_error (a b : ℚ) (hb : b ≠ 0) (h : |a / b * 100| ≤ 10 ^ 20) :
    ∃ D, JsNum.mul (JsNum.div (JsNum.fin a) (JsNum.fin b)) (JsNum.fin 100) = JsNum.fin D ∧
      |D - a / b * 100| ≤ |a / b * 100| / 2 ^ 51 + 2 ^ (-1067 : ℤ) ∧ |D| < 10 ^ 21 := by
  have h2 : (2 : ℚ) ≠ 0 := by norm_num
  have htau : (0 : ℚ) < 2 ^ (-1075 : ℤ) := zpow_pos (by norm_num) _
  have htau1 := tiny_le_one
  have h256 : (2 : ℚ) ^ (-1067 : ℤ) = 256 * 2 ^ (-1075 : ℤ) := by
    rw [show (-1067 : ℤ) = 8 + -1075 by norm_num, zpow_add₀ h2]
    norm_num
  have hx : |a / b * 100| = |a / b| * 100 := by
    rw [abs_mul]; norm_num
  rw [hx] at h ⊢
  have hA : (0 : ℚ) ≤ |a / b| := abs_nonneg _
  have hA1 : |a / b| ≤ 10 ^ 20 := by linarith
  obtain ⟨d1, hd1, herr1, _⟩ := div_error a b hb hA1
  have hd1abs : |d1| ≤ 2 * |a / b| + 2 ^ (-1075 : ℤ) := by
    have h1 := abs_sub_abs_le_abs_sub d1 (a / b)
    have h3 : |a / b| / 2 ^ 53 ≤ |a / b| := div_le_self hA (by norm_num)
    linarith
  have hx2 : |d1 * 100| = |d1| * 100 := by
    rw [abs_mul]; norm_num
  have hbig : |d1 * 100| < 2 ^ (1023 : ℤ) := by
    have h4 : (2 * (10 : ℚ) ^ 18 + 1) * 100 < 10 ^ 21 := by norm_num
    have h5 : |a / b| ≤ 10 ^ 18 := by
      have : (10 : ℚ) ^ 20 = 10 ^ 18 * 100 := by norm_num
      rw [this] at h
      exact le_of_mul_le_mul_right h (by norm_num)
    rw [hx2]
    have : |d1| * 100 < 10 ^ 21 := by linarith
    exact lt_trans this two_pow_seventy
  obtain ⟨D, hD, herr2⟩ := toDouble_error (d1 * 100) hbig
  rw [hx2] at herr2
  have hsplit : |D - a / b * 100| ≤ |D - d1 * 100| + |d1 - a / b| * 100 := by
    have h1 : D - a / b * 100 = (D - d1 * 100) + (d1 - a / b) * 100 := by ring
    rw [h1]
    refine (abs_add _ _).trans ?_
    rw [abs_mul]
    norm_num
  have hq1 : |d1| * 100 / 2 ^ 53 ≤ 200 * (|a / b| / 2 ^ 53) + 100 * 2 ^ (-1075 : ℤ) := by
    have h6 : |d1| * 100 / 2 ^ 53 ≤ (2 * |a / b| + 2 ^ (-1075 : ℤ)) * 100 / 2 ^ 53 := by
      apply div_le_div_of_nonneg_right _ (by norm_num)
      linarith
    have h7 : (2 * |a / b| + 2 ^ (-1075 : ℤ)) * 100 / 2 ^ 53
        = 200 * (|a / b| / 2 ^ 53) + 100 * (2 ^ (-1075 : ℤ) / 2 ^ 53) := by ring
    have h8 : (2 : ℚ) ^ (-1075 : ℤ) / 2 ^ 53 ≤ 2 ^ (-1075 : ℤ) :=
      div_le_self htau.le (by norm_num)
    linarith
  have hrel : |a / b| * 100 / 2 ^ 51 = 400 * (|a / b| / 2 ^ 53) := by
    have : (2 : ℚ) ^ 53 = 4 * 2 ^ 51 := by norm_num
    rw [this]
    field_simp
    ring
  have hpos : (0 : ℚ) ≤ |a / b| / 2 ^ 53 := div_nonneg hA (by norm_num)
  have hfinal : |D - a / b * 100| ≤ |a / b| * 100 / 2 ^ 51 + 2 ^ (-1067 : ℤ) := by
    rw [hrel, h256]
    linarith
  refine ⟨D, ?_, hfinal, ?_⟩
  · rw [hd1, mul_fin, hD]
  · have h1 := abs_sub_abs_le_abs_sub D (a / b * 100)
    rw [hx] at h1
    rw [hrel, h256] at hfinal
    have h3 : |a / b| / 2 ^ 53 ≤ |a / b| / 2 ^ 9 :=
      div_le_div_of_nonneg_left hA (by norm_num) (by norm_num)
    have h4 : |a / b| / 2 ^ 9 ≤ 10 ^ 18 / 2 ^ 9 := by
      apply div_le_div_of_nonneg_right _ (by norm_num)
      have : (10 : ℚ) ^ 20 = 10 ^ 18 * 100 := by norm_num
      rw [this] at h
      exact le_of_mul_le_mul_right h (by norm_num)
    have h5 : (10 : ℚ) ^ 20 + 400 * (10 ^ 18 / 2 ^ 9) + 256 < 10 ^ 21 := by norm_num
    linarith

theorem toDouble_of_round (q : ℚ) (k m : ℤ) (h1 : (2 : ℚ) ^ k ≤ |q|)
    (h2 : |q| < 2 ^ (k + 1)) (hk : -1022 ≤ k)
    (hm : roundHalfEven (q / 2 ^ (k - 52)) = m)
    (hfin : |(m : ℚ) * 2 ^ (k - 52)| < 2 ^ (1024 : ℤ)) :
    toDouble q = JsNum.fin ((m : ℚ) * 2 ^ (k - 52)) := by
  have hu : ulpExp q = k - 52 := by
    rw [ulpExp_of_bounds q k h1 h2]
    exact max_eq_left (by omega)
  unfold toDouble
  rw [hu, hm, if_neg (not_le.mpr hfin)]

theorem toDouble_half : toDouble (1 / 2) = JsNum.fin (1 / 2) := by
  have h := toDouble_exact 1 (-1) (by norm_num) (by norm_num) (by norm_num)
  norm_num at h
  exact h

theorem toDouble_nat (n : ℕ) (h : n < 2 ^ 53) : toDouble (n : ℚ) = JsNum.fin (n : ℚ) := by
  have hm : |(n : ℤ)| < 2 ^ 53 := by
    rw [abs_of_nonneg (Int.natCast_nonneg n)]
    exact_mod_cast h
  simpa using toDouble_intCast (n : ℤ) hm

theorem toDouble_29_400 :
    toDouble (29 / 400) = JsNum.fin (5224175567749775 / 72057594037927936) := by
  have h := toDouble_of_round (29 / 400) (-4) 5224175567749775
    (by norm_num [abs_of_pos]) (by norm_num [abs_of_pos]) (by norm_num)
    (by unfold roundHalfEven; norm_num) (by norm_num [abs_of_pos])
  norm_num at h
  exact h

theorem toDouble_29_400_percent :
    toDouble (5224175567749775 / 72057594037927936 * 100) =
      JsNum.fin (8162774324609023 / 1125899906842624) := by
  rw [show (5224175567749775 / 72057594037927936 * 100 : ℚ)
    = 130604389193744375 / 18014398509481984 by norm_num]
  have h := toDouble_of_round (5224175567749775 / 72057594037927936 * 100) 2 8162774324609023
    (by norm_num [abs_of_pos]) (by norm_num [abs_of_pos]) (by norm_num)
    (by unfold roundHalfEven; norm_num) (by norm_num [abs_of_pos])
  norm_num at h
  exact h

theorem toDouble_23_80 :
    toDouble (23 / 80) = JsNum.fin (2589569785738035 / 9007199254740992) := by
  have h := toDouble_of_round (23 / 80) (-2) 5179139571476070
    (by norm_num [abs_of_pos]) (by norm_num [abs_of_pos]) (by norm_num)
    (by unfold roundHalfEven; norm_num) (by norm_num [abs_of_pos])
  norm_num at h
  exact h

theorem toDouble_23_80_percent :
    toDouble (2589569785738035 / 9007199254740992 * 100) =
      JsNum.fin (8092405580431359 / 281474976710656) := by
  rw [show (2589569785738035 / 9007199254740992 * 100 : ℚ)
    = 64739244643450875 / 2251799813685248 by norm_num]
  have h := toDouble_of_round (2589569785738035 / 9007199254740992 * 100) 4 8092405580431359
    (by norm_num [abs_of_pos]) (by norm_num [abs_of_pos]) (by norm_num)
    (by unfold roundHalfEven; norm_num) (by norm_num [abs_of_pos])
  norm_num at h
  exact h

theorem toDouble_6_80 :
    toDouble (6 / 80) = JsNum.fin (5404319552844595 / 72057594037927936) := by
  rw [show (6 / 80 : ℚ) = 3 / 40 by norm_num]
  have h := toDouble_of_round (6 / 80) (-4) 5404319552844595
    (by norm_num [abs_of_pos]) (by norm_num [abs_of_pos]) (by norm_num)
    (by unfold roundHalfEven; norm_num) (by norm_num [abs_of_pos])
  norm_num at h
  exact h

theorem isDouble_ofNat (n : ℕ) [n.AtLeastTwo] (h : n < 2 ^ 53) :
    IsDouble (OfNat.ofNat n : ℚ) := by
  have := toDouble_nat n h
  simpa [IsDouble] using this

theorem isDouble_zero : IsDouble 0 := toDouble_zero

theorem parsed_sampleReference : Parsed sampleReference := by
  simp only [Parsed, sampleReference, List.forall_mem_cons]
  refine ⟨?_, ?_, ?_, ?_, ?_, ?_, ?_, ?_, ?_, ?_, ?_, ?_, ?_, ?_, by simp⟩ <;>
    exact isDouble_ofNat _ (by norm_num)

theorem parsed_sampleBed : Parsed sampleBed := by
  simp only [Parsed, sampleBed, List.forall_mem_cons]
  refine ⟨?_, ?_, ?_, ?_, ?_, ?_, ?_, ?_, ?_, ?_, ?_, ?_, ?_, ?_, by simp⟩ <;>
    exact isDouble_ofNat _ (by norm_num)

theorem parsed_tieReference : Parsed tieReference := by
  simp only [Parsed, tieReference, List.forall_mem_cons]
  refine ⟨?_, ?_, by simp⟩ <;> exact isDouble_ofNat _ (by norm_num)

theorem parsed_tieBed : Parsed tieBed := by
  simp only [Parsed, tieBed, List.forall_mem_cons]
  refine ⟨?_, ?_, ?_, ?_, by simp⟩ <;> exact isDouble_ofNat _ (by norm_num)

theorem parsed_darkBed : Parsed darkBed := by
  simp only [Parsed, darkBed, List.forall_mem_cons]
  exact ⟨isDouble_ofNat _ (by norm_num), isDouble_zero, by simp⟩

theorem mapIdxFrom_length {α β : Type} (f : α → Nat → β) (k : Nat) (l : List α) :
    (mapIdxFrom f k l).length = l.length := by
  induction l generalizing k with
  | nil => rfl
  | cons x xs ih => simp [mapIdxFrom, ih]

theorem mapIdxFrom_get? {α β : Type} (f : α → Nat → β) (k : Nat) (l : List α) (i : Nat) :
    (mapIdxFrom f k l).get? i = (l.get? i).map fun x => f x (k + i) := by
  induction l generalizing k i with
  | nil => simp [mapIdxFrom]
  | cons x xs ih =>
    cases i with
    | zero => simp [mapIdxFrom]
    | succ j =>
      simp only [mapIdxFrom, List.get?_cons_succ, ih]
      congr 1
      funext y
      congr 1
      omega

theorem tDataOf_get? (reference bed : Reading) (i : Nat) (key : String)
    (hkey : DATA_KEYS.get? i = some key) :
    (tDataOf (spectralDataOf bed) (spectralDataOf reference)).get? i =
      some (if 0 < orZero (reference.lookup key) then
        Datum.text (toFixed 1 (JsNum.mul
          (JsNum.div (JsNum.fin (orZero (bed.lookup key)))
            (JsNum.fin (orZero (reference.lookup key)))) (JsNum.fin 100)))
      else Datum.num 0) := by
  have hkey1 : DATA_KEYS[i]? = some key := by simpa using hkey
  unfold tDataOf
  rw [mapIdxFrom_get?]
  simp [spectralDataOf, hkey1]

theorem roundFixed_error (d : Nat) (q : ℚ) :
    |(roundFixed d q).value - q| ≤ 1 / (2 * 10 ^ d) := by
  have hp : (0 : ℚ) < 10 ^ d := by positivity
  have hfl_nonneg : 0 ≤ ⌊|q| * 10 ^ d + 1 / 2⌋ := by
    apply Int.floor_nonneg.mpr
    positivity
  have hcast : ((⌊|q| * 10 ^ d + 1 / 2⌋.toNat : ℕ) : ℚ) = (⌊|q| * 10 ^ d + 1 / 2⌋ : ℚ) := by
    have := Int.toNat_of_nonneg hfl_nonneg
    exact_mod_cast this
  have hle : (⌊|q| * 10 ^ d + 1 / 2⌋ : ℚ) ≤ |q| * 10 ^ d + 1 / 2 := Int.floor_le _
  have hlt : |q| * 10 ^ d + 1 / 2 < (⌊|q| * 10 ^ d + 1 / 2⌋ : ℚ) + 1 := Int.lt_floor_add_one _
  have habs : abs ((⌊|q| * 10 ^ d + 1 / 2⌋ : ℚ) / 10 ^ d - abs q) ≤ 1 / (2 * 10 ^ d) := by
    rw [abs_le]
    constructor
    · rw [le_sub_iff_add_le, le_div_iff₀ hp]
      have : (-(1 / (2 * 10 ^ d)) + |q|) * 10 ^ d = |q| * 10 ^ d - 1 / 2 := by
        field_simp
        ring
      rw [this]
      linarith
    · rw [sub_le_iff_le_add, div_le_iff₀ hp]
      have : (1 / (2 * 10 ^ d) + |q|) * 10 ^ d = |q| * 10 ^ d + 1 / 2 := by
        field_simp
        ring
      rw [this]
      exact hle
  unfold Fixed.value roundFixed
  dsimp only
  rw [hcast]
  by_cases hq : q < 0
  · simp only [hq, decide_True, if_true]
    rw [abs_of_neg hq] at habs ⊢
    rw [abs_sub_comm] at habs
    have : -1 * ((⌊-q * 10 ^ d + 1 / 2⌋ : ℚ) / 10 ^ d) - q
        = -q - (⌊-q * 10 ^ d + 1 / 2⌋ : ℚ) / 10 ^ d := by ring
    rw [this]
    exact habs
  · simp only [hq, decide_False, if_false, Bool.false_eq_true, one_mul]
    rw [abs_of_nonneg (not_lt.mp hq)] at habs ⊢
    exact habs

theorem toFixed_rounds (d : Nat) (q : ℚ) (h : |q| < 10 ^ 21) :
    ∃ f : Fixed, f.digits = d ∧ |f.value - q| ≤ 1 / (2 * 10 ^ d) ∧
      toFixed d (JsNum.fin q) = Text.lit f.render := by
  refine ⟨roundFixed d q, rfl, roundFixed_error d q, ?_⟩
  unfold toFixed
  dsimp only
  rw [if_neg (not_le.mpr h)]

theorem refDataOf_present (data : LiveData) (reference : Reading)
    (href : data.lookup "Referencia" = some reference) :
    refDataOf data = spectralDataOf reference := by
  unfold refDataOf spectralDataOf
  rw [href]

theorem spectralDataOf_length (r : Reading) : (spectralDataOf r).length = 12 := by
  simp [spectralDataOf, DATA_KEYS]

/-! ## The charts exist in every reachable state -/

theorem ready_of_tables (w w1 : World) (hc : w1.charts = w.charts)
    (ht : w1.transmission = w.transmission) (h : Ready w) : Ready w1 := by
  unfold Ready
  rw [hc, ht]
  exact h

theorem ready_recreateChartIfNeeded (s : Sensor) (t : ChartType) (l : String) (w : World)
    (h : Ready w) : Ready (recreateChartIfNeeded s t l w).world := by
  unfold recreateChartIfNeeded
  split
  · exact h
  · split
    · refine ⟨fun u => ?_, h.2⟩
      by_cases hu : u = s
      · simp [Result.world, createChart, setAt, hu]
      · simpa [Result.world, createChart, setAt, hu] using h.1 u
    · refine ⟨fun u => ?_, h.2⟩
      by_cases hu : u = s
      · simp [Result.world, setAt, hu]
      · simpa [Result.world, setAt, hu] using h.1 u

theorem ready_histSensor (g : HistData) (s : Sensor) (w : World) (h : Ready w) :
    Ready (histSensor g s w).world := by
  unfold histSensor
  split
  · have hr := ready_recreateChartIfNeeded s ChartType.line ("Historial PPFD " ++ s.name) w h
    split
    · next e he => rw [he] at hr; exact hr
    · next w1 he =>
      rw [he] at hr
      refine ⟨fun u => ?_, hr.2⟩
      by_cases hu : u = s
      · have := hr.1 s
        simpa [Result.world, updateChartTitles, setAt, hu] using this
      · simpa [Result.world, updateChartTitles, setAt, hu] using hr.1 u
  · split
    · exact h
    · refine ⟨fun u => ?_, h.2⟩
      by_cases hu : u = s
      · simp [Result.world, setAt, hu]
      · simpa [Result.world, setAt, hu] using h.1 u

theorem ready_histResume (r : Response HistData) (w : World) (h : Ready w) :
    Ready (fetchAndDisplayHistoricalData_resume r w).world := by
  unfold fetchAndDisplayHistoricalData_resume
  split
  · exact h
  · split
    · exact h
    · split
      · exact h
      · exact h
      · next g =>
        have h1 := ready_histSensor g Sensor.Referencia w h
        split
        · next e he => rw [he] at h1; exact h1
        · next w1 he1 =>
          rw [he1] at h1
          have h2 := ready_histSensor g Sensor.Cama_1 w1 h1
          split
          · next e he => rw [he] at h2; exact h2
          · next w2 he2 =>
            rw [he2] at h2
            exact ready_histSensor g Sensor.Cama_2 w2 h2

theorem ready_summaryLoop (l : List (String × SummaryEntry)) (w : World) (h : Ready w) :
    Ready (summaryLoop l w).world := by
  induction l generalizing w with
  | nil => exact h
  | cons x rest ih =>
    obtain ⟨sensorId, entry⟩ := x
    unfold summaryLoop
    split
    · exact h
    · split
      · exact h
      · split
        · exact h
        · exact ih _ (ready_of_tables w _ rfl rfl h)

theorem ready_sumResume (r : Response SummaryData) (w : World) (h : Ready w) :
    Ready (fetchAndDisplaySummaryData_resume r w).world := by
  unfold fetchAndDisplaySummaryData_resume
  split
  · exact h
  · split
    · exact h
    · split
      · exact h
      · exact h
      · exact ready_summaryLoop _ _ h

theorem ready_liveRender (data : LiveData) (w : World) (h : Ready w) :
    Ready (liveRender data w).world := by
  unfold liveRender
  dsimp only
  obtain ⟨a1, e1, r1, _⟩ :=
    liveSensor_spec data (refDataOf data) Sensor.Referencia (w, { bed1 := [], bed2 := [] }) h
  rw [e1]
  dsimp only
  obtain ⟨a2, e2, r2, _⟩ := liveSensor_spec data (refDataOf data) Sensor.Cama_1 a1 r1
  rw [e2]
  dsimp only
  obtain ⟨a3, e3, r3, _⟩ := liveSensor_spec data (refDataOf data) Sensor.Cama_2 a2 r2
  rw [e3]
  dsimp only
  unfold updateTransmissionChart
  split
  · exact r3
  · exact ⟨r3.1, rfl⟩

theorem ready_liveResume (r : Response LiveData) (w : World) (h : Ready w) :
    Ready (fetchAndDisplayLiveData_resume r w).world := by
  have hl : Ready (liveTry r w).world := by
    unfold liveTry
    split
    · exact h
    · split
      · exact h
      · split
        · exact h
        · exact h
        · exact ready_liveRender _ _ h
  unfold fetchAndDisplayLiveData_resume
  split
  · next w1 he => rw [he] at hl; exact hl
  · next e w1 he => rw [he] at hl; exact ready_of_tables w1 _ rfl rfl hl

theorem ready_finally (w : World) (h : Ready w) : Ready (updateDashboard_finally w) := by
  unfold updateDashboard_finally
  split
  · exact ready_of_tables w _ rfl rfl h
  · exact h

theorem ready_setView (v : View) (w : World) (h : Ready w) : Ready (setView v w) := by
  unfold setView
  split
  · exact h
  · refine ready_of_tables w _ ?_ ?_ h
    · unfold updateDashboard
      dsimp only
      split <;> split <;> (try split) <;> rfl
    · unfold updateDashboard
      dsimp only
      split <;> split <;> (try split) <;> rfl

theorem ready_settle (res : Result) (other settled : Bool) (h : Ready res.world) :
    Ready (settle res other settled).1 := by
  unfold settle
  split
  · split
    · exact h
    · split
      · exact h
      · exact ready_finally _ h
  · split
    · exact h
    · exact ready_finally _ (ready_of_tables _ _ rfl rfl h)

theorem ready_step (w : World) (e : Event) (h : Ready w) : Ready (step w e) := by
  cases e with
  | click v =>
    dsimp only [step]
    split
    · exact ready_setView v w h
    · exact h
  | timerFires id =>
    dsimp only [step]
    split
    · exact ready_of_tables w _ rfl rfl h
    · exact h
  | liveResponse i r =>
    dsimp only [step]
    have h0 : Ready { w with pending := w.pending.eraseIdx i } := ready_of_tables w _ rfl rfl h
    have h1 := ready_liveResume r _ h0
    split
    · split
      · next w1 he => rw [he] at h1; exact ready_finally _ h1
      · next e1 w1 he =>
        rw [he] at h1
        exact ready_finally _ (ready_of_tables _ _ rfl rfl h1)
    · exact h1
    · exact h
  | histResponse i r =>
    dsimp only [step]
    split
    · next s settled _ =>
      exact ready_of_tables _ _ rfl rfl (ready_settle _ s settled (ready_histResume r w h))
    · exact h
  | sumResponse i r =>
    dsimp only [step]
    split
    · next hh settled _ =>
      exact ready_of_tables _ _ rfl rfl (ready_settle _ hh settled (ready_sumResume r w h))
    · exact h

theorem ready_run (events : List Event) (w : World) (h : Ready w) : Ready (run w events) := by
  induction events generalizing w with
  | nil => exact h
  | cons e es ih => exact ih (step w e) (ready_step w e h)

/-! ## Claims on the live rendering -/

/-- C5 (as the code behaves): the reported transmission is not always the exact
quotient rounded to one decimal place.  For the response with reference 80 and bed
23 on the second channel the exact value of `(23 / 80) * 100` is `28.75`, which
rounds to `28.8` (upwards, as `toFixed` resolves a tie, and to the even digit
alike), while the series handed to the transmission chart holds `28.7`: the
binary64 product is `28.749999999999996`. -/
theorem transmission_tie_reported_low :
    ∃ w1 tc,
      fetchAndDisplayLiveData_resume (Response.http true "OK" (Body.obj tieLive))
        (init initialWorld) = Except.ok w1 ∧
      w1.transmission = some tc ∧
      tc.bed1.get? 1 = some (Datum.text (Text.lit "28.7")) ∧
      (23 : ℚ) / 80 * 100 = 28.75 ∧
      (roundFixed 1 ((23 : ℚ) / 80 * 100)).render = "28.8" ∧
      roundHalfEven ((23 : ℚ) / 80 * 100 * 10) = 288 ∧
      tc.bed1.get? 1 ≠
        some (Datum.text (Text.lit (roundFixed 1 ((23 : ℚ) / 80 * 100)).render)) := by
  obtain ⟨w1, tc, h1, h2, hb1, _, _⟩ := liveResume_spec "OK" tieLive (init initialWorld) ready_init
  have hseries : tc.bed1 = tDataOf (spectralDataOf tieBed) (spectralDataOf tieReference) := by
    rw [hb1]
    unfold seriesStep
    rw [show List.lookup Sensor.Cama_1.name tieLive = some tieBed from rfl,
      refDataOf_present tieLive tieReference rfl]
    dsimp only
    rw [if_pos (by rw [spectralDataOf_length]; decide)]
  have r1 : tieReference.lookup "ch_440" = some 80 := rfl
  have b1 : tieBed.lookup "ch_440" = some 23 := rfl
  have o80 : orZero (some 80) = 80 := by norm_num [orZero]
  have o23 : orZero (some 23) = 23 := by norm_num [orZero]
  have hentry : tc.bed1.get? 1 = some (Datum.text (Text.lit "28.7")) := by
    rw [hseries, tDataOf_get? tieReference tieBed 1 "ch_440" rfl, r1, b1, o80, o23,
      if_pos (by norm_num), div_fin 23 80 (by norm_num), toDouble_23_80, mul_fin,
      toDouble_23_80_percent]
    norm_num [toFixed, roundFixed, Fixed.render, Fixed.fraction, abs_of_nonneg]
    decide
  have hexact : (roundFixed 1 ((23 : ℚ) / 80 * 100)).render = "28.8" := by
    norm_num [roundFixed, Fixed.render, Fixed.fraction, abs_of_nonneg]
    decide
  refine ⟨w1, tc, h1, h2, hentry, by norm_num, hexact, ?_, ?_⟩
  · unfold roundHalfEven
    norm_num
  · rw [hentry, hexact]
    decide

/-- C5 (amended): for a live response that carries `Referencia` and an
experimental sensor (`Cama_1` or `Cama_2`), its numbers binary64 values as
`response.json()` yields them, rendered on a page whose charts exist, the series
handed to the transmission chart for that sensor has one entry per key of
`DATA_KEYS`.  On a
channel whose reference value is positive the entry is the text that `toFixed(1)`
gives for the binary64 value of `(val / ref) * 100`: for a quotient of magnitude
at most `10^20` that value is finite, within the relative error `2^-51` of the
exact quotient, and the entry is the decimal numeral with one fraction digit
within `1/20` of it.  On a channel whose reference value is zero (or negative, or
missing) the entry is the number `0`, never `NaN` or an infinity. -/
theorem transmission_per_channel (w : World) (statusText : String) (data : LiveData)
    (reference bed : Reading) (e : Sensor) (hready : Ready w)
    (he : e = Sensor.Cama_1 ∨ e = Sensor.Cama_2)
    (href : data.lookup "Referencia" = some reference)
    (hbed : data.lookup e.name = some bed)
    (_hparsedRef : Parsed reference) (_hparsedBed : Parsed bed) :
    ∃ w1 tc,
      fetchAndDisplayLiveData_resume (Response.http true statusText (Body.obj data)) w
        = Except.ok w1 ∧
      w1.transmission = some tc ∧
      (if e = Sensor.Cama_1 then tc.bed1 else tc.bed2).length = DATA_KEYS.length ∧
      ∀ (i : Nat) (key : String), DATA_KEYS.get? i = some key →
        (0 < orZero (reference.lookup key) →
          (if e = Sensor.Cama_1 then tc.bed1 else tc.bed2).get? i =
            some (Datum.text (toFixed 1 (JsNum.mul
              (JsNum.div (JsNum.fin (orZero (bed.lookup key)))
                (JsNum.fin (orZero (reference.lookup key)))) (JsNum.fin 100)))) ∧
          (|orZero (bed.lookup key) / orZero (reference.lookup key) * 100| ≤ 10 ^ 20 →
            ∃ (D : ℚ) (f : Fixed),
              JsNum.mul (JsNum.div (JsNum.fin (orZero (bed.lookup key)))
                (JsNum.fin (orZero (reference.lookup key)))) (JsNum.fin 100) = JsNum.fin D ∧
              |D - orZero (bed.lookup key) / orZero (reference.lookup key) * 100| ≤
                |orZero (bed.lookup key) / orZero (reference.lookup key) * 100| / 2 ^ 51
                  + 2 ^ (-1067 : ℤ) ∧
              f.digits = 1 ∧ |f.value - D| ≤ 1 / 20 ∧
              (if e = Sensor.Cama_1 then tc.bed1 else tc.bed2).get? i =
                some (Datum.text (Text.lit f.render)))) ∧
        (orZero (reference.lookup key) ≤ 0 →
          (if e = Sensor.Cama_1 then tc.bed1 else tc.bed2).get? i = some (Datum.num 0)) := by
  obtain ⟨w1, tc, h1, h2, hb1, hb2, _⟩ := liveResume_spec statusText data w hready
  have hseries : (if e = Sensor.Cama_1 then tc.bed1 else tc.bed2) =
      tDataOf (spectralDataOf bed) (spectralDataOf reference) := by
    rcases he with he | he
    · subst he
      rw [if_pos rfl, hb1]
      unfold seriesStep
      rw [hbed, refDataOf_present data reference href]
      dsimp only
      rw [if_pos (by rw [spectralDataOf_length]; decide)]
    · subst he
      rw [if_neg (by decide), hb2]
      unfold seriesStep
      rw [hbed, refDataOf_present data reference href]
      dsimp only
      rw [if_pos (by rw [spectralDataOf_length]; decide)]
  refine ⟨w1, tc, h1, h2, ?_, ?_⟩
  · rw [hseries]
    unfold tDataOf
    rw [mapIdxFrom_length, spectralDataOf_length]
    rfl
  · intro i key hkey
    rw [hseries, tDataOf_get? reference bed i key hkey]
    refine ⟨fun hpos => ⟨by rw [if_pos hpos], fun hsmall => ?_⟩,
      fun hle => by rw [if_neg (not_lt.mpr hle)]⟩
    obtain ⟨D, hD, herr, hlt⟩ := mulDiv_error (orZero (bed.lookup key))
      (orZero (reference.lookup key)) (ne_of_gt hpos) hsmall
    obtain ⟨f, hf1, hf2, hf3⟩ := toFixed_rounds 1 D hlt
    refine ⟨D, f, hD, herr, hf1, ?_, ?_⟩
    · norm_num at hf2 ⊢
      exact hf2
    · rw [if_pos hpos, hD, hf3]

theorem transmission_per_channel_witness :
    (∃ w1 tc,
      fetchAndDisplayLiveData_resume (Response.http true "OK" (Body.obj sampleLive))
        (init initialWorld) = Except.ok w1 ∧
      w1.transmission = some tc ∧
      tc.bed1.get? 0 = some (Datum.text (Text.lit "50.0")) ∧
      tc.bed1.get? 1 = some (Datum.text (Text.lit "100.0"))) ∧
    (∃ w1 tc,
      fetchAndDisplayLiveData_resume (Response.http true "OK" (Body.obj tieLive))
        (init initialWorld) = Except.ok w1 ∧
      w1.transmission = some tc ∧
      tc.bed1.get? 0 = some (Datum.text (Text.lit "7.2")) ∧
      tc.bed1.get? 1 = some (Datum.text (Text.lit "28.7"))) := by
  have h100 : toDouble 100 = JsNum.fin 100 := by simpa using toDouble_nat 100 (by norm_num)
  have h50 : toDouble 50 = JsNum.fin 50 := by simpa using toDouble_nat 50 (by norm_num)
  have h1 : toDouble 1 = JsNum.fin 1 := by simpa using toDouble_nat 1 (by norm_num)
  constructor
  · obtain ⟨w1, tc, h1w, h2, _, h4⟩ := transmission_per_channel (init initialWorld) "OK"
      sampleLive sampleReference sampleBed Sensor.Cama_1 ready_init (Or.inl rfl) rfl rfl
      parsed_sampleReference parsed_sampleBed
    have r0 : sampleReference.lookup "ch_415" = some 100 := rfl
    have b0 : sampleBed.lookup "ch_415" = some 50 := rfl
    have r1 : sampleReference.lookup "ch_440" = some 100 := rfl
    have b1 : sampleBed.lookup "ch_440" = some 100 := rfl
    refine ⟨w1, tc, h1w, h2, ?_, ?_⟩
    · have h := (h4 0 "ch_415" rfl).1 (by rw [r0]; norm_num [orZero])
      rw [if_pos rfl, r0, b0] at h
      rw [h.1]
      have hv : JsNum.mul (JsNum.div (JsNum.fin (orZero (some 50))) (JsNum.fin (orZero (some 100))))
          (JsNum.fin 100) = JsNum.fin 50 := by
        norm_num [orZero, JsNum.div, JsNum.mul, toDouble_half, h50]
      rw [hv]
      norm_num [toFixed, roundFixed, Fixed.render, Fixed.fraction, abs_of_nonneg]
      decide
    · have h := (h4 1 "ch_440" rfl).1 (by rw [r1]; norm_num [orZero])
      rw [if_pos rfl, r1, b1] at h
      rw [h.1]
      have hv : JsNum.mul (JsNum.div (JsNum.fin (orZero (some 100))) (JsNum.fin (orZero (some 100))))
          (JsNum.fin 100) = JsNum.fin 100 := by
        norm_num [orZero, JsNum.div, JsNum.mul, h1, h100]
      rw [hv]
      norm_num [toFixed, roundFixed, Fixed.render, Fixed.fraction, abs_of_nonneg]
      decide
  · obtain ⟨w1, tc, h1w, h2, _, h4⟩ := transmission_per_channel (init initialWorld) "OK"
      tieLive tieReference tieBed Sensor.Cama_1 ready_init (Or.inl rfl) rfl rfl
      parsed_tieReference parsed_tieBed
    have r0 : tieReference.lookup "ch_415" = some 400 := rfl
    have b0 : tieBed.lookup "ch_415" = some 29 := rfl
    have r1 : tieReference.lookup "ch_440" = some 80 := rfl
    have b1 : tieBed.lookup "ch_440" = some 23 := rfl
    have o400 : orZero (some 400) = 400 := by norm_num [orZero]
    have o29 : orZero (some 29) = 29 := by norm_num [orZero]
    have o80 : orZero (some 80) = 80 := by norm_num [orZero]
    have o23 : orZero (some 23) = 23 := by norm_num [orZero]
    refine ⟨w1, tc, h1w, h2, ?_, ?_⟩
    · have h := (h4 0 "ch_415" rfl).1 (by rw [r0]; norm_num [orZero])
      rw [if_pos rfl, r0, b0, o400, o29] at h
      rw [h.1, div_fin 29 400 (by norm_num), toDouble_29_400, mul_fin, toDouble_29_400_percent]
      norm_num [toFixed, roundFixed, Fixed.render, Fixed.fraction, abs_of_nonneg]
      decide
    · have h := (h4 1 "ch_440" rfl).1 (by rw [r1]; norm_num [orZero])
      rw [if_pos rfl, r1, b1, o80, o23] at h
      rw [h.1, div_fin 23 80 (by norm_num), toDouble_23_80, mul_fin, toDouble_23_80_percent]
      norm_num [toFixed, roundFixed, Fixed.render, Fixed.fraction, abs_of_nonneg]
      decide

/-- C6 (as the code behaves): for the live response that carries `Cama_1` and no
`Referencia`, the series handed to `updateTransmissionChart` for `Cama_1` is empty;
it is not the series of twelve zeros. -/
theorem transmission_without_reference_not_zeros :
    ∃ w1 tc,
      fetchAndDisplayLiveData_resume (Response.http true "OK" (Body.obj bedOnlyLive))
        (init initialWorld) = Except.ok w1 ∧
      w1.transmission = some tc ∧ tc.bed1 = [] ∧
      tc.bed1 ≠ List.replicate 12 (Datum.num 0) := by
  obtain ⟨w1, tc, h1, h2, hb1, _, _⟩ := liveResume_spec "OK" bedOnlyLive (init initialWorld) ready_init
  have hempty : tc.bed1 = [] := by rw [hb1]; rfl
  refine ⟨w1, tc, h1, h2, hempty, ?_⟩
  rw [hempty]
  simp [List.replicate]

/-- C6 (amended): for every live response in which `Referencia` is absent, rendered
on a page whose charts exist, the two series handed to `updateTransmissionChart`
are empty, whether or not an experimental sensor is present. -/
theorem transmission_without_reference_empty (w : World) (statusText : String)
    (data : LiveData) (hready : Ready w) (href : data.lookup "Referencia" = none) :
    ∃ w1 tc,
      fetchAndDisplayLiveData_resume (Response.http true statusText (Body.obj data)) w
        = Except.ok w1 ∧
      w1.transmission = some tc ∧ tc.bed1 = [] ∧ tc.bed2 = [] := by
  obtain ⟨w1, tc, h1, h2, hb1, hb2, _⟩ := liveResume_spec statusText data w hready
  have href0 : refDataOf data = [] := by
    unfold refDataOf
    rw [href]
  refine ⟨w1, tc, h1, h2, ?_, ?_⟩
  · rw [hb1, href0]
    unfold seriesStep
    split <;> simp
  · rw [hb2, href0]
    unfold seriesStep
    split <;> simp

theorem transmission_without_reference_empty_witness :
    bedOnlyLive.lookup "Referencia" = none ∧
    ∃ w1 tc,
      fetchAndDisplayLiveData_resume (Response.http true "OK" (Body.obj bedOnlyLive))
        (init initialWorld) = Except.ok w1 ∧
      w1.transmission = some tc ∧ tc.bed1 = [] ∧ tc.bed2 = [] :=
  ⟨rfl, transmission_without_reference_empty (init initialWorld) "OK" bedOnlyLive ready_init rfl⟩

/-- C7 (as the code behaves): at `lux = min = 0`, the value `updateHeatmap` passes
when `total_lux` is missing or `0`, `mapLuxToColor` returns the cool end of the
scale `hsl(210, 70%, 55%)` and not the neutral colour; the older variant returns
`hsl(60, 80%, 50%)` there. -/
theorem mapLuxToColor_at_min_not_neutral :
    mapLuxToColor (some 0) 0 2000 =
        Color.hsl (JsNum.fin 210) (JsNum.fin 70) (JsNum.fin 55) ∧
      mapLuxToColor (some 0) 0 2000 ≠ Color.hex "#a3b1c6" ∧
      (updateHeatmap Sensor.Cama_1 (orZero none) (init initialWorld)).heatmap Sensor.Cama_1 =
        some (Color.hsl (JsNum.fin 210) (JsNum.fin 70) (JsNum.fin 55)) ∧
      Legacy.mapLuxToColor (some 0) 0 1500 =
        Color.hsl (JsNum.fin 60) (JsNum.fin 80) (JsNum.fin 50) := by
  have h210 : toDouble 210 = JsNum.fin 210 := by simpa using toDouble_nat 210 (by norm_num)
  have h70 : toDouble 70 = JsNum.fin 70 := by simpa using toDouble_nat 70 (by norm_num)
  have h55 : toDouble 55 = JsNum.fin 55 := by simpa using toDouble_nat 55 (by norm_num)
  have h60 : toDouble 60 = JsNum.fin 60 := by simpa using toDouble_nat 60 (by norm_num)
  have h50 : toDouble 50 = JsNum.fin 50 := by simpa using toDouble_nat 50 (by norm_num)
  have h : mapLuxToColor (some 0) 0 2000 =
      Color.hsl (JsNum.fin 210) (JsNum.fin 70) (JsNum.fin 55) := by
    norm_num [mapLuxToColor, JsNum.min, JsNum.div, JsNum.gt, JsNum.sub, JsNum.mul, JsNum.add,
      JsNum.neg, toDouble_zero, h210, h70, h55]
  refine ⟨h, ?_, ?_, ?_⟩
  · rw [h]; simp
  · simp [updateHeatmap, setAt, orZero, h]
  · norm_num [Legacy.mapLuxToColor, JsNum.min, JsNum.div, JsNum.gt, JsNum.sub, JsNum.mul,
      JsNum.add, JsNum.neg, toDouble_zero, h60, h50]

/-- C7 (amended): for every lux value strictly below the configured minimum, and
for a missing lux value, `mapLuxToColor` returns the neutral colour `#a3b1c6` (the
older variant does so for a missing value only, never for a number); at
`lux = min`, with `min < max`, it returns the cool end of the scale,
`hsl(210, 70%, 55%)`. -/
theorem mapLuxToColor_below_min (lux minLux maxLux : ℚ) (h : lux < minLux) :
    mapLuxToColor (some lux) minLux maxLux = Color.hex "#a3b1c6" ∧
      mapLuxToColor none minLux maxLux = Color.hex "#a3b1c6" ∧
      Legacy.mapLuxToColor none minLux maxLux = Color.hex "#a3b1c6" ∧
      Legacy.mapLuxToColor (some lux) minLux maxLux ≠ Color.hex "#a3b1c6" ∧
      (minLux < maxLux → mapLuxToColor (some minLux) minLux maxLux =
        Color.hsl (JsNum.fin 210) (JsNum.fin 70) (JsNum.fin 55)) := by
  refine ⟨?_, rfl, rfl, ?_, ?_⟩
  · unfold mapLuxToColor
    dsimp only
    rw [if_pos h]
  · simp [Legacy.mapLuxToColor]
  · intro hlt
    have hne : maxLux - minLux ≠ 0 := sub_ne_zero.mpr (ne_of_gt hlt)
    have h210 : toDouble 210 = JsNum.fin 210 := by simpa using toDouble_nat 210 (by norm_num)
    have h70 : toDouble 70 = JsNum.fin 70 := by simpa using toDouble_nat 70 (by norm_num)
    have h55 : toDouble 55 = JsNum.fin 55 := by simpa using toDouble_nat 55 (by norm_num)
    simp [mapLuxToColor, JsNum.min, JsNum.div, JsNum.gt, JsNum.sub, JsNum.mul, JsNum.add,
      JsNum.neg, hne, toDouble_zero]
    norm_num [toDouble_zero, h210, h70, h55]

theorem mapLuxToColor_below_min_witness :
    (-1 : ℚ) < 0 ∧ mapLuxToColor (some (-1)) 0 2000 = Color.hex "#a3b1c6" :=
  ⟨by norm_num, (mapLuxToColor_below_min (-1) 0 2000 (by norm_num)).1⟩

/-- C9: `fetchAndDisplayLiveData` never propagates a failure: whatever the outcome
of the fetch, the resumed function ends normally, leaving the view, the stored
polling handle, the active timers and the requests issued as they were; on a
network rejection, on a non-success status, on a body that does not parse and on a
`null` body (an error while rendering) the world is unchanged but for one line
added to the console. -/
theorem liveData_never_propagates (w : World) (r : Response LiveData) (statusText : String)
    (body : Body LiveData) :
    (∃ w1, fetchAndDisplayLiveData_resume r w = Except.ok w1 ∧ w1.view = w.view ∧
        w1.updateIntervalId = w.updateIntervalId ∧ w1.timers = w.timers ∧
        w1.requests = w.requests) ∧
      fetchAndDisplayLiveData_resume Response.networkError w =
        Except.ok { w with console := w.console ++ [liveErrorLine "TypeError: Failed to fetch"] } ∧
      fetchAndDisplayLiveData_resume (Response.http false statusText body) w =
        Except.ok { w with
          console := w.console ++ [liveErrorLine ("Error: Error en API (live): " ++ statusText)] } ∧
      fetchAndDisplayLiveData_resume (Response.http true statusText Body.unparsable) w =
        Except.ok { w with
          console := w.console ++ [liveErrorLine "SyntaxError: Unexpected token"] } ∧
      fetchAndDisplayLiveData_resume (Response.http true statusText Body.null) w =
        Except.ok { w with
          console := w.console ++ [liveErrorLine "TypeError: Cannot read properties of null"] } := by
  refine ⟨?_, rfl, rfl, rfl, rfl⟩
  obtain ⟨w1, h1⟩ := liveResume_ok r w
  have h2 := ctrl_liveResume r w
  rw [h1] at h2
  have h3 : ctrl w1 = ctrl w := h2
  refine ⟨w1, h1, ?_, ?_, ?_, ?_⟩
  · exact congrArg Ctrl.view h3
  · exact congrArg Ctrl.updateIntervalId h3
  · exact congrArg Ctrl.timers h3
  · exact congrArg Ctrl.requests h3

/-- C8 (as the code behaves): a missing field is not always shown as a zero.  A
live reading with `ch_730 = 80` shows the R:FR text `NaN` when `ch_680` is missing
and `0.00` when `ch_680` is `0`; a summary entry without `dli` makes
`fetchAndDisplaySummaryData` throw a `TypeError` and leaves the readouts untouched,
while the same entry with `dli = 0` shows `0.00`. -/
theorem missing_field_not_shown_as_zero :
    (∃ w1 m, fetchAndDisplayLiveData_resume
          (Response.http true "OK" (Body.obj [("Cama_1", bedWithout680)])) (init initialWorld)
          = Except.ok w1 ∧
        w1.metrics Sensor.Cama_1 = some m ∧ m.rfr = Text.lit "NaN") ∧
      (∃ w1 m, fetchAndDisplayLiveData_resume
          (Response.http true "OK" (Body.obj [("Cama_1", bedZero680)])) (init initialWorld)
          = Except.ok w1 ∧
        w1.metrics Sensor.Cama_1 = some m ∧ m.rfr = Text.lit "0.00") ∧
      fetchAndDisplaySummaryData_resume (Response.http true "OK" (Body.obj summaryMissingDli))
          (init initialWorld) =
        Except.error ("TypeError: Cannot read properties of undefined (reading toFixed)",
          init initialWorld) ∧
      (∃ w1, fetchAndDisplaySummaryData_resume (Response.http true "OK" (Body.obj summaryZeroDli))
          (init initialWorld) = Except.ok w1 ∧
        w1.metrics Sensor.Referencia =
          some { ppfd := Text.lit "---", dli := Text.lit "0.00", rfr := Text.lit "1.00" }) := by
  refine ⟨?_, ?_, rfl, ?_⟩
  · obtain ⟨w1, _, h1, _, _, _, hm⟩ :=
      liveResume_spec "OK" [("Cama_1", bedWithout680)] (init initialWorld) ready_init
    have hl : List.lookup Sensor.Cama_1.name [("Cama_1", bedWithout680)] = some bedWithout680 := rfl
    have h680 : bedWithout680.lookup "ch_680" = none := rfl
    have h730 : bedWithout680.lookup "ch_730" = some 80 := rfl
    refine ⟨w1, liveMetrics bedWithout680, h1, ?_, ?_⟩
    · rw [hm, metricsStep, hl]
    · show rfrOf bedWithout680 = _
      norm_num [rfrOf, h680, h730, toNumber, JsNum.gt, JsNum.div, toFixed]
  · obtain ⟨w1, _, h1, _, _, _, hm⟩ :=
      liveResume_spec "OK" [("Cama_1", bedZero680)] (init initialWorld) ready_init
    have hl : List.lookup Sensor.Cama_1.name [("Cama_1", bedZero680)] = some bedZero680 := rfl
    have h680 : bedZero680.lookup "ch_680" = some 0 := rfl
    have h730 : bedZero680.lookup "ch_730" = some 80 := rfl
    refine ⟨w1, liveMetrics bedZero680, h1, ?_, ?_⟩
    · rw [hm, metricsStep, hl]
    · show rfrOf bedZero680 = _
      norm_num [rfrOf, h680, h730, toNumber, JsNum.gt, JsNum.div, toDouble_zero, toFixed,
        roundFixed, Fixed.render, Fixed.fraction]
      decide
  · refine ⟨_, rfl, ?_⟩
    norm_num [updateMetricsUI, setAt, toFixed, roundFixed, Fixed.render, Fixed.fraction]
    decide

/-- C10 (as the code behaves): the R:FR readout is not always the exact quotient
rounded to two decimal places.  For `ch_680 = 6`, `ch_730 = 80` the exact quotient
is `0.075`, which rounds to `0.08` (upwards, as `toFixed` resolves a tie, and to
the even digit alike), while the readout is `0.07`: the binary64 quotient is
`0.07499999999999999722`. -/
theorem rfr_tie_displayed_low :
    ∃ w1 m,
      fetchAndDisplayLiveData_resume (Response.http true "OK" (Body.obj tieLive))
        (init initialWorld) = Except.ok w1 ∧
      w1.metrics Sensor.Cama_1 = some m ∧ m.rfr = Text.lit "0.07" ∧
      (6 : ℚ) / 80 = 0.075 ∧
      (roundFixed 2 ((6 : ℚ) / 80)).render = "0.08" ∧
      roundHalfEven ((6 : ℚ) / 80 * 100) = 8 ∧
      m.rfr ≠ Text.lit (roundFixed 2 ((6 : ℚ) / 80)).render := by
  obtain ⟨w1, _, h1, _, _, _, hm⟩ := liveResume_spec "OK" tieLive (init initialWorld) ready_init
  have h680 : tieBed.lookup "ch_680" = some 6 := rfl
  have h730 : tieBed.lookup "ch_730" = some 80 := rfl
  have hrfr : rfrOf tieBed = Text.lit "0.07" := by
    have hgen : rfrOf tieBed = toFixed 2 (JsNum.div (JsNum.fin 6) (JsNum.fin 80)) := by
      simp [rfrOf, h680, h730, toNumber, JsNum.gt]
    rw [hgen, div_fin 6 80 (by norm_num), toDouble_6_80]
    norm_num [toFixed, roundFixed, Fixed.render, Fixed.fraction, abs_of_nonneg]
    decide
  have hexact : (roundFixed 2 ((6 : ℚ) / 80)).render = "0.08" := by
    norm_num [roundFixed, Fixed.render, Fixed.fraction, abs_of_nonneg]
    decide
  refine ⟨w1, liveMetrics tieBed, h1, ?_, hrfr, by norm_num, hexact, ?_, ?_⟩
  · rw [hm, metricsStep, show List.lookup Sensor.Cama_1.name tieLive = some tieBed from rfl]
  · unfold roundHalfEven
    norm_num
  · show rfrOf tieBed ≠ _
    rw [hrfr, hexact]
    decide

/-- C10 (amended): for a live response rendered on a page whose charts exist and
a sensor whose reading it carries, the numbers of the reading binary64 values as
`response.json()` yields them, the R:FR readout of that sensor is, when `ch_730` is
positive, the text that `toFixed(2)` gives for the binary64 quotient
`ch_680 / ch_730`: for a reading that has `ch_680` and a quotient of magnitude at
most `10^20` that quotient is finite, within the relative error `2^-53` of the
exact quotient, and the readout is the decimal numeral with two fraction digits
within `1/200` of it.  When `ch_730` is zero, negative or missing the readout is
the placeholder `N/A`. -/
theorem live_rfr_readout (w : World) (statusText : String) (data : LiveData) (s : Sensor)
    (reading : Reading) (hready : Ready w) (hdata : data.lookup s.name = some reading)
    (_hparsed : Parsed reading) :
    ∃ w1 m,
      fetchAndDisplayLiveData_resume (Response.http true statusText (Body.obj data)) w
        = Except.ok w1 ∧
      w1.metrics s = some m ∧
      (∀ b, reading.lookup "ch_730" = some b → 0 < b →
        m.rfr = toFixed 2 (JsNum.div (toNumber (reading.lookup "ch_680")) (JsNum.fin b)) ∧
        ∀ a, reading.lookup "ch_680" = some a → |a / b| ≤ 10 ^ 20 →
          ∃ (D : ℚ) (f : Fixed),
            JsNum.div (JsNum.fin a) (JsNum.fin b) = JsNum.fin D ∧
            |D - a / b| ≤ |a / b| / 2 ^ 53 + 2 ^ (-1075 : ℤ) ∧
            f.digits = 2 ∧ |f.value - D| ≤ 1 / 200 ∧
            m.rfr = Text.lit f.render) ∧
      (∀ b, reading.lookup "ch_730" = some b → b ≤ 0 → m.rfr = Text.lit "N/A") ∧
      (reading.lookup "ch_730" = none → m.rfr = Text.lit "N/A") := by
  obtain ⟨w1, _, h1, _, _, _, hm⟩ := liveResume_spec statusText data w hready
  refine ⟨w1, liveMetrics reading, h1, by rw [hm, metricsStep, hdata], ?_, ?_, ?_⟩
  · intro b hb hpos
    have hgen : rfrOf reading =
        toFixed 2 (JsNum.div (toNumber (reading.lookup "ch_680")) (JsNum.fin b)) := by
      simp [rfrOf, hb, toNumber, JsNum.gt, hpos]
    refine ⟨hgen, ?_⟩
    intro a ha hsmall
    obtain ⟨D, hD, herr, hlt⟩ := div_error a b (ne_of_gt hpos) hsmall
    obtain ⟨f, hf1, hf2, hf3⟩ := toFixed_rounds 2 D hlt
    refine ⟨D, f, hD, herr, hf1, ?_, ?_⟩
    · norm_num at hf2 ⊢
      exact hf2
    · show rfrOf reading = _
      rw [hgen, ha]
      show toFixed 2 (JsNum.div (JsNum.fin a) (JsNum.fin b)) = _
      rw [hD, hf3]
  · intro b hb hle
    show rfrOf reading = _
    simp [rfrOf, hb, toNumber, JsNum.gt, not_lt.mpr hle]
  · intro hb
    show rfrOf reading = _
    simp [rfrOf, hb, toNumber, JsNum.gt]

theorem live_rfr_readout_witness :
    (∃ w1 m, fetchAndDisplayLiveData_resume (Response.http true "OK" (Body.obj sampleLive))
          (init initialWorld) = Except.ok w1 ∧
        w1.metrics Sensor.Cama_1 = some m ∧ m.rfr = Text.lit "0.50") ∧
      (∃ w1 m, fetchAndDisplayLiveData_resume
          (Response.http true "OK" (Body.obj [("Cama_2", darkBed)])) (init initialWorld)
          = Except.ok w1 ∧
        w1.metrics Sensor.Cama_2 = some m ∧ m.rfr = Text.lit "N/A") ∧
      (∃ w1 m, fetchAndDisplayLiveData_resume (Response.http true "OK" (Body.obj tieLive))
          (init initialWorld) = Except.ok w1 ∧
        w1.metrics Sensor.Cama_1 = some m ∧ m.rfr = Text.lit "0.07") := by
  refine ⟨?_, ?_, ?_⟩
  · obtain ⟨w1, m, h1, h2, h3, _, _⟩ := live_rfr_readout (init initialWorld) "OK" sampleLive
      Sensor.Cama_1 sampleBed ready_init rfl parsed_sampleBed
    refine ⟨w1, m, h1, h2, ?_⟩
    have h := (h3 80 rfl (by norm_num)).1
    have h680 : sampleBed.lookup "ch_680" = some 40 := rfl
    rw [h, h680]
    norm_num [toNumber, JsNum.div, toDouble_half, toFixed, roundFixed, Fixed.render,
      Fixed.fraction, abs_of_nonneg]
    decide
  · obtain ⟨w1, m, h1, h2, _, h4, _⟩ := live_rfr_readout (init initialWorld) "OK"
      [("Cama_2", darkBed)] Sensor.Cama_2 darkBed ready_init rfl parsed_darkBed
    exact ⟨w1, m, h1, h2, h4 0 rfl (le_refl 0)⟩
  · obtain ⟨w1, m, h1, h2, h3, _, _⟩ := live_rfr_readout (init initialWorld) "OK" tieLive
      Sensor.Cama_1 tieBed ready_init rfl parsed_tieBed
    refine ⟨w1, m, h1, h2, ?_⟩
    have h := (h3 80 rfl (by norm_num)).1
    have h680 : tieBed.lookup "ch_680" = some 6 := rfl
    rw [h, h680]
    show toFixed 2 (JsNum.div (JsNum.fin 6) (JsNum.fin 80)) = _
    rw [div_fin 6 80 (by norm_num), toDouble_6_80]
    norm_num [toFixed, roundFixed, Fixed.render, Fixed.fraction, abs_of_nonneg]
    decide

/-! ## Chart replacement -/

theorem recreate_call (w : World) (s : Sensor) (t : ChartType) (l : String) (c : Chart)
    (hc : w.charts s = some c) :
    ∃ w1 c1, recreateChartIfNeeded s t l w = Except.ok w1 ∧ w1.charts s = some c1 ∧
      c1.type = t ∧ c1.label = l ∧ (∀ u, u ≠ s → w1.charts u = w.charts u) ∧
      w1.transmission = w.transmission ∧
      (c.type ≠ t → w1.destroyed = w.destroyed ++ [c.uid] ∧
        w1.nextChartUid = w.nextChartUid + 1 ∧
        c1 = (if t = ChartType.bar then getBarChartConfig w.nextChartUid l
          else getLineChartConfig w.nextChartUid l)) ∧
      (c.type = t → w1.destroyed = w.destroyed ∧ w1.nextChartUid = w.nextChartUid ∧
        c1 = { c with label := l }) := by
  unfold recreateChartIfNeeded
  rw [hc]
  dsimp only
  by_cases hty : c.type ≠ t
  · rw [if_pos hty]
    refine ⟨_, (if t = ChartType.bar then getBarChartConfig w.nextChartUid l
      else getLineChartConfig w.nextChartUid l), rfl, ?_, ?_, ?_, ?_, rfl, ?_, ?_⟩
    · simp [createChart, setAt]
    · cases t <;> simp [getBarChartConfig, getLineChartConfig]
    · cases t <;> simp [getBarChartConfig, getLineChartConfig]
    · intro u hu
      simp [createChart, setAt, hu]
    · intro _
      exact ⟨rfl, rfl, rfl⟩
    · intro h
      exact absurd h hty
  · rw [if_neg hty]
    have hty1 : c.type = t := not_not.mp hty
    refine ⟨_, { c with label := l }, rfl, ?_, hty1, rfl, ?_, rfl, ?_, ?_⟩
    · simp [setAt]
    · intro u hu
      simp [setAt, hu]
    · intro h
      exact absurd hty1 h
    · intro _
      exact ⟨rfl, rfl, rfl⟩

theorem requestedFor_cons_self (k : Call) (rest : List Call) :
    requestedFor k.sensorId (k :: rest) = k.newType :: requestedFor k.sensorId rest := by
  simp [requestedFor, List.filter]

theorem requestedFor_cons_other (u : Sensor) (k : Call) (rest : List Call)
    (h : k.sensorId ≠ u) : requestedFor u (k :: rest) = requestedFor u rest := by
  simp [requestedFor, List.filter, h]

theorem recreateAll_counts (calls : List Call) (w : World)
    (hall : ∀ u, (w.charts u).isSome = true) :
    ∃ w2, recreateAll calls w = Except.ok w2 ∧ (∀ u, (w2.charts u).isSome = true) ∧
      ∀ u cu, w.charts u = some cu →
        destroysOf u calls w = typeChanges cu.type (requestedFor u calls) ∧
        createsOf u calls w = typeChanges cu.type (requestedFor u calls) ∧
        ∃ c2, w2.charts u = some c2 ∧ c2.type = (requestedFor u calls).getLastD cu.type := by
  induction calls generalizing w with
  | nil =>
    refine ⟨w, rfl, hall, ?_⟩
    intro u cu hu
    exact ⟨rfl, rfl, cu, hu, rfl⟩
  | cons k rest ih =>
    cases hk : w.charts k.sensorId with
    | none => have := hall k.sensorId; rw [hk] at this; exact absurd this (by simp)
    | some ck =>
      obtain ⟨w1, c1, h1, hc1, hty1, _, hother, _, hchg, hsame⟩ :=
        recreate_call w k.sensorId k.newType k.label ck hk
      have hall1 : ∀ u, (w1.charts u).isSome = true := by
        intro u
        by_cases hu : u = k.sensorId
        · rw [hu, hc1]; rfl
        · rw [hother u hu]; exact hall u
      obtain ⟨w2, h2, hall2, hcount⟩ := ih w1 hall1
      refine ⟨w2, ?_, hall2, ?_⟩
      · simp only [recreateAll, h1]
        exact h2
      · intro u cu hu
        by_cases hku : k.sensorId = u
        · subst hku
          have hcu : ck = cu := by rw [hk] at hu; exact Option.some.inj hu
          subst hcu
          obtain ⟨hd, hcr, c2, hc2, hty2⟩ := hcount k.sensorId c1 hc1
          rw [requestedFor_cons_self]
          simp only [destroysOf, createsOf, h1, if_true, typeChanges, List.getLastD_cons]
          rw [hd, hcr, hty1]
          by_cases hty : ck.type ≠ k.newType
          · obtain ⟨hdes, hnext, _⟩ := hchg hty
            rw [hdes, hnext, if_pos hty]
            refine ⟨by simp, by simp, c2, hc2, ?_⟩
            rw [hty2, hty1]
          · have hty0 : ck.type = k.newType := not_not.mp hty
            obtain ⟨hdes, hnext, _⟩ := hsame hty0
            rw [hdes, hnext, if_neg hty]
            refine ⟨by simp, by simp, c2, hc2, ?_⟩
            rw [hty2, hty1]
        · have hu1 : w1.charts u = some cu := by
            rw [hother u (fun h => hku h.symm)]; exact hu
          obtain ⟨hd, hcr, c2, hc2, hty2⟩ := hcount u cu hu1
          rw [requestedFor_cons_other u k rest hku]
          simp only [destroysOf, createsOf, h1, if_neg hku, Nat.zero_add]
          exact ⟨hd, hcr, c2, hc2, hty2⟩

/-! ## Claim on chart replacement -/

/-- C11: in a chart table that holds a chart `c` for sensor `s`, the call
`recreateChartIfNeeded(s, ..., t, label, ...)` returns normally, ends with the chart
of `s` having type `t` and the given label, and leaves the chart of every other
sensor and the transmission chart unchanged.  When the type of `c` differs from
`t` there is exactly one `destroy()`, of the instance `c`, and exactly one
creation, of a new instance with the base configuration of type `t`; when the type
of `c` equals `t` nothing is destroyed or created and the instance `c` stays, only
its dataset label updated.  Hence over any sequence of calls on a table that holds
a chart for every sensor, all calls return normally, and for every sensor the
number of destroys and the number of creations made by its calls both equal the
number of type changes along the types required for it, and its chart ends with
the last type required. -/
theorem recreate_once_per_type_change (w : World) (s : Sensor) (t : ChartType) (l : String)
    (c : Chart) (calls : List Call) (hc : w.charts s = some c)
    (hall : ∀ u, (w.charts u).isSome = true) :
    (∃ w1 c1, recreateChartIfNeeded s t l w = Except.ok w1 ∧ w1.charts s = some c1 ∧
      c1.type = t ∧ c1.label = l ∧ (∀ u, u ≠ s → w1.charts u = w.charts u) ∧
      w1.transmission = w.transmission ∧
      (c.type ≠ t → w1.destroyed = w.destroyed ++ [c.uid] ∧
        w1.nextChartUid = w.nextChartUid + 1 ∧
        c1 = (if t = ChartType.bar then getBarChartConfig w.nextChartUid l
          else getLineChartConfig w.nextChartUid l)) ∧
      (c.type = t → w1.destroyed = w.destroyed ∧ w1.nextChartUid = w.nextChartUid ∧
        c1 = { c with label := l })) ∧
    ∃ w2, recreateAll calls w = Except.ok w2 ∧
      ∀ u cu, w.charts u = some cu →
        destroysOf u calls w = typeChanges cu.type (requestedFor u calls) ∧
        createsOf u calls w = typeChanges cu.type (requestedFor u calls) ∧
        ∃ c2, w2.charts u = some c2 ∧ c2.type = (requestedFor u calls).getLastD cu.type := by
  refine ⟨recreate_call w s t l c hc, ?_⟩
  obtain ⟨w2, h2, _, hcount⟩ := recreateAll_counts calls w hall
  exact ⟨w2, h2, hcount⟩

theorem recreate_once_per_type_change_witness :
    (init initialWorld).charts Sensor.Cama_1 = some (getBarChartConfig 1 "Espectro Cama_1") ∧
      (∃ w1, recreateChartIfNeeded Sensor.Cama_1 ChartType.line "Historial PPFD Cama_1"
          (init initialWorld) = Except.ok w1 ∧
        w1.charts Sensor.Cama_1 = some (getLineChartConfig 4 "Historial PPFD Cama_1") ∧
        w1.destroyed = [1] ∧ w1.nextChartUid = 5) ∧
      destroysOf Sensor.Cama_1 sampleCalls (init initialWorld) = 2 ∧
      createsOf Sensor.Cama_1 sampleCalls (init initialWorld) = 2 ∧
      destroysOf Sensor.Referencia sampleCalls (init initialWorld) = 1 ∧
      destroysOf Sensor.Cama_2 sampleCalls (init initialWorld) = 0 := by
  have h := recreate_once_per_type_change (init initialWorld) Sensor.Cama_1 ChartType.line
    "Historial PPFD Cama_1" (getBarChartConfig 1 "Espectro Cama_1") sampleCalls rfl ready_init.1
  obtain ⟨⟨w1, c1, h1, hc1, _, _, _, _, hchg, _⟩, w2, _, hcount⟩ := h
  obtain ⟨hdes, hnext, hnew⟩ := hchg (by decide)
  refine ⟨rfl, ⟨w1, h1, ?_, hdes, hnext⟩, ?_, ?_, ?_, ?_⟩
  · rw [hc1, hnew]; rfl
  · exact (hcount Sensor.Cama_1 _ rfl).1
  · exact (hcount Sensor.Cama_1 _ rfl).2.1
  · exact (hcount Sensor.Referencia (getBarChartConfig 0 "Espectro Referencia") rfl).1
  · exact (hcount Sensor.Cama_2 (getBarChartConfig 2 "Espectro Cama_2") rfl).1

end Dashboard
